import Mathlib

/-!
Shallow embedding of the multi-strategy Instagram retrieval engine
(`InstagramService` in src/services/instagram.service.ts): the data model
(`InstagramPost`, `InstagramConfig`, `InstagramResponse`), the three
retrieval strategies (`fetchViaPuppeteer`, `fetchViaCheerio`,
`fetchViaApi`) and the orchestrator (`getLatestPost`).

External boundaries (axios HTTP client, puppeteer browser automation,
cheerio HTML loading, the filesystem, Math.random) are modelled as
environment records whose fields return `Except String` values: `.error`
models a thrown/rejected promise, `.ok` a normal completion.  Pure
JavaScript computations performed by the service itself (string regex
matching, JSON.parse, Date#toISOString, truthiness coercions) are
implemented below, restricted to the value shapes the service actually
handles (integral JSON numbers; unicode escapes out of scope).
-/

namespace InstagramRetrieval

/-- JavaScript string truthiness: only the empty string is falsy. -/
def strTruthy (s : String) : Bool := s ≠ ""

/-- JavaScript `a || b` on a possibly-undefined string (`none` = undefined). -/
def jsOrStr (a : Option String) (b : String) : String :=
  match a with
  | some s => if s = "" then b else s
  | none => b

/-- JavaScript `a || b` where both operands are possibly-undefined strings. -/
def jsOrOpt (a b : Option String) : Option String :=
  match a with
  | some s => if s = "" then b else some s
  | none => b

/-- Truthiness of a possibly-undefined string. -/
def optTruthy (o : Option String) : Bool :=
  match o with
  | some s => s ≠ ""
  | none => false

/-! ### Character-list utilities

All string analysis is done on `List Char` with structural recursion so
that every definition reduces in the kernel. -/

/-- Does `pat` occur as a prefix of `s`? -/
def isPrefixL (pat s : List Char) : Bool :=
  match pat, s with
  | [], _ => true
  | _ :: _, [] => false
  | p :: ps, c :: cs => p == c && isPrefixL ps cs

/-- Does `pat` occur as a contiguous substring of `s`?  (Models
JavaScript `s.includes(pat)` for non-empty `pat`.) -/
def containsL (pat : List Char) : List Char → Bool
  | [] => isPrefixL pat []
  | c :: cs => isPrefixL pat (c :: cs) || containsL pat cs

/-- Split at the first occurrence of `pat` (non-empty): returns the part
before and the part after the occurrence. -/
def splitFirstL (pat : List Char) : List Char → Option (List Char × List Char)
  | [] => none
  | c :: cs =>
    if isPrefixL pat (c :: cs) then some ([], (c :: cs).drop pat.length)
    else
      match splitFirstL pat cs with
      | some (b, a) => some (c :: b, a)
      | none => none

/-- The part of `s` after the first occurrence of `pat` (non-empty). -/
def afterFirstL (pat : List Char) (s : List Char) : Option (List Char) :=
  match splitFirstL pat s with
  | some (_, a) => some a
  | none => none

/-- The part of `s` before the LAST occurrence of `pat` (non-empty):
models the greedy capture of a regex ending in a literal. -/
def beforeLastL (pat : List Char) : List Char → Option (List Char)
  | [] => none
  | c :: cs =>
    match beforeLastL pat cs with
    | some r => some (c :: r)
    | none => if isPrefixL pat (c :: cs) then some [] else none

/-- Split on newline characters (JavaScript regex `.` does not match a
line terminator, so unanchored literal patterns match within one line). -/
def splitLinesL : List Char → List (List Char)
  | [] => [[]]
  | c :: cs =>
    if c == '\n' then [] :: splitLinesL cs
    else
      match splitLinesL cs with
      | [] => [[c]]
      | l :: ls => (c :: l) :: ls

/-- JavaScript-style whitespace test (common cases). -/
def isWsChar (c : Char) : Bool :=
  c == ' ' || c == '\t' || c == '\n' || c == '\r'

/-- `String#trim` on a character list. -/
def trimL (s : List Char) : List Char :=
  ((s.dropWhile isWsChar).reverse.dropWhile isWsChar).reverse

/-- `s.includes(pat)` on strings. -/
def containsSub (s pat : String) : Bool := containsL pat.data s.data

/-- `s.endsWith(pat)` on strings. -/
def endsWithSub (s pat : String) : Bool := isPrefixL pat.data.reverse s.data.reverse

/-! ### JSON values and `JSON.parse`

JavaScript numbers are modelled as integers: every numeric literal the
service's embedded-state payloads carry (ids are strings; timestamps and
like counts are integral) is integral, so fractional and exponent forms
are out of scope and rejected by the parser. -/

/-- A parsed JSON value.  Object fields keep document order; duplicate
keys resolve to the last occurrence, as in `JSON.parse`. -/
inductive Json where
  | null : Json
  | bool : Bool → Json
  | num : Int → Json
  | str : String → Json
  | arr : List Json → Json
  | obj : List (String × Json) → Json

/-- Last-wins object field lookup (matches `JSON.parse` duplicate-key
semantics). -/
def objGet (kvs : List (String × Json)) (k : String) : Option Json :=
  match kvs with
  | [] => none
  | (k0, v0) :: rest =>
    match objGet rest k with
    | some v => some v
    | none => if k0 = k then some v0 else none

/-- JSON whitespace. -/
def skipWsL : List Char → List Char
  | [] => []
  | c :: cs => if isWsChar c then skipWsL cs else c :: cs

/-- Decimal digit accumulation. -/
def takeDigits : List Char → List Char × List Char
  | [] => ([], [])
  | c :: cs =>
    if c.isDigit then
      match takeDigits cs with
      | (ds, rest) => (c :: ds, rest)
    else ([], c :: cs)

/-- Value of a non-empty digit list. -/
def digitsVal (ds : List Char) : Nat :=
  ds.foldl (fun acc c => acc * 10 + (c.toNat - 48)) 0

/-- Parse an integral JSON number at the head of the input. -/
def parseNumL (s : List Char) : Option (Json × List Char) :=
  match s with
  | '-' :: rest =>
    match takeDigits rest with
    | ([], _) => none
    | (ds, r) => some (Json.num (-(digitsVal ds : Int)), r)
  | _ =>
    match takeDigits s with
    | ([], _) => none
    | (ds, r) => some (Json.num (digitsVal ds : Int), r)

/-- Single-character JSON string escapes, keyed by code point
(`\uXXXX` out of scope): n, t, r, b, f, quote, backslash, slash. -/
def escChar (c : Char) : Option Char :=
  match c.toNat with
  | 110 => some '\n'
  | 116 => some '\t'
  | 114 => some '\r'
  | 98 => some (Char.ofNat 8)
  | 102 => some (Char.ofNat 12)
  | 34 => some '"'
  | 92 => some '\\'
  | 47 => some '/'
  | _ => none

/-- Parse the body of a JSON string (opening quote already consumed). -/
def parseStrL (acc : List Char) : List Char → Option (String × List Char)
  | [] => none
  | '"' :: rest => some (String.mk acc.reverse, rest)
  | '\\' :: e :: rest =>
    match escChar e with
    | some c => parseStrL (c :: acc) rest
    | none => none
  | ['\\'] => none
  | c :: rest => parseStrL (c :: acc) rest

mutual

/-- Fuel-based recursive-descent JSON value parser. -/
def parseJsonV : Nat → List Char → Option (Json × List Char)
  | 0, _ => none
  | Nat.succ fuel, s =>
    match skipWsL s with
    | 'n' :: 'u' :: 'l' :: 'l' :: r => some (Json.null, r)
    | 't' :: 'r' :: 'u' :: 'e' :: r => some (Json.bool true, r)
    | 'f' :: 'a' :: 'l' :: 's' :: 'e' :: r => some (Json.bool false, r)
    | '"' :: r =>
      match parseStrL [] r with
      | some (str, r2) => some (Json.str str, r2)
      | none => none
    | '[' :: r =>
      match skipWsL r with
      | ']' :: r2 => some (Json.arr [], r2)
      | r2 => parseJsonItems fuel r2
    | '\x7b' :: r =>
      match skipWsL r with
      | '\x7d' :: r2 => some (Json.obj [], r2)
      | r2 => parseJsonFields fuel r2
    | r => parseNumL r

/-- Parse one-or-more array items up to the closing bracket. -/
def parseJsonItems : Nat → List Char → Option (Json × List Char)
  | 0, _ => none
  | Nat.succ fuel, s =>
    match parseJsonV fuel s with
    | none => none
    | some (v, r) =>
      match skipWsL r with
      | ',' :: r2 =>
        match parseJsonItems fuel r2 with
        | some (Json.arr vs, r3) => some (Json.arr (v :: vs), r3)
        | _ => none
      | ']' :: r2 => some (Json.arr [v], r2)
      | _ => none

/-- Parse one-or-more object fields up to the closing brace. -/
def parseJsonFields : Nat → List Char → Option (Json × List Char)
  | 0, _ => none
  | Nat.succ fuel, s =>
    match skipWsL s with
    | '"' :: r =>
      match parseStrL [] r with
      | none => none
      | some (key, r2) =>
        match skipWsL r2 with
        | ':' :: r3 =>
          match parseJsonV fuel r3 with
          | none => none
          | some (v, r4) =>
            match skipWsL r4 with
            | ',' :: r5 =>
              match parseJsonFields fuel r5 with
              | some (Json.obj kvs, r6) => some (Json.obj ((key, v) :: kvs), r6)
              | _ => none
            | '\x7d' :: r5 => some (Json.obj [(key, v)], r5)
            | _ => none
        | _ => none
    | _ => none

end

/-- `JSON.parse`: `none` models a thrown `SyntaxError`. -/
def jsonParse (s : String) : Option Json :=
  match parseJsonV (s.data.length + 1) s.data with
  | some (j, rest) => if (skipWsL rest).isEmpty then some j else none
  | none => none

/-! ### JavaScript value semantics on parsed JSON

`Option Json` represents a JavaScript value that may be `undefined`
(`none`).  Property access distinguishes plain access (throws a
`TypeError` on `null`/`undefined`) from optional chaining. -/

/-- JavaScript truthiness of a possibly-undefined JSON value. -/
def jsTruthy (o : Option Json) : Bool :=
  match o with
  | none => false
  | some Json.null => false
  | some (Json.bool b) => b
  | some (Json.num n) => n ≠ 0
  | some (Json.str s) => s ≠ ""
  | some (Json.arr _) => true
  | some (Json.obj _) => true

/-- Plain property access `x.f`: `.error ()` models a thrown
`TypeError` (access on `null`/`undefined`); non-object primitives give
`undefined`. -/
def jaccess (o : Option Json) (f : String) : Except Unit (Option Json) :=
  match o with
  | none => Except.error ()
  | some Json.null => Except.error ()
  | some (Json.obj kvs) => Except.ok (objGet kvs f)
  | some _ => Except.ok none

/-- Optional-chaining access `x?.f`. -/
def jchain (o : Option Json) (f : String) : Option Json :=
  match o with
  | none => none
  | some Json.null => none
  | some (Json.obj kvs) => objGet kvs f
  | some _ => none

/-- Optional-chaining index `x?.[i]`. -/
def jchainIdx (o : Option Json) (i : Nat) : Option Json :=
  match o with
  | none => none
  | some Json.null => none
  | some (Json.arr l) => l.get? i
  | some _ => none

/-- `x.length` as used in the truthiness test `edges.length > 0`
(`undefined > 0` is false, encoded as length 0). -/
def jsLen (o : Option Json) : Nat :=
  match o with
  | some (Json.arr l) => l.length
  | some (Json.str s) => s.data.length
  | some (Json.obj kvs) =>
    match objGet kvs "length" with
    | some (Json.num n) => n.toNat
    | _ => 0
  | _ => 0

/-- Plain index `x[i]` on a value known non-null. -/
def jsIndex (o : Option Json) (i : Nat) : Option Json :=
  match o with
  | some (Json.arr l) => l.get? i
  | some (Json.str s) => (s.data.get? i).map (fun c => Json.str (String.mk [c]))
  | some (Json.obj kvs) => objGet kvs (toString i)
  | _ => none

/-- Template-literal coercion of a possibly-undefined value
(as in the backtick-interpolated post URL): `undefined` prints as the
string "undefined". -/
def jsTemplateJ : Json → String
  | Json.null => "null"
  | Json.bool b => if b then "true" else "false"
  | Json.num n => toString n
  | Json.str s => s
  | Json.arr _ => ""
  | Json.obj _ => "[object Object]"

/-- Template-literal coercion, `undefined` included. -/
def jsTemplate (o : Option Json) : String :=
  match o with
  | none => "undefined"
  | some j => jsTemplateJ j

/-- The string a JSON value contributes when stored into a
string-typed record field; non-string values are out of the model's
scope and map to `none` (undefined). -/
def asStrOpt (o : Option Json) : Option String :=
  match o with
  | some (Json.str s) => some s
  | _ => none

/-! ### `Date#toISOString`

`new Date(ms).toISOString()` for an integral number of milliseconds,
via the standard civil-from-days calendar algorithm.  Inputs beyond the
ECMAScript time range throw a `RangeError`, modelled by the caller. -/

/-- Gregorian date (year, month, day) of a day count relative to
1970-01-01. -/
def civilFromDays (z0 : Int) : Int × Nat × Nat :=
  let z := z0 + 719468
  let era := z.fdiv 146097
  let doe := (z - era * 146097).toNat
  let yoe := (doe - doe / 1460 + doe / 36524 - doe / 146096) / 365
  let y := (yoe : Int) + era * 400
  let doy := doe - (365 * yoe + yoe / 4 - yoe / 100)
  let mp := (5 * doy + 2) / 153
  let d := doy - (153 * mp + 2) / 5 + 1
  let m := if mp < 10 then mp + 3 else mp - 9
  (if m ≤ 2 then y + 1 else y, m, d)

/-- Zero-padding to two digits. -/
def pad2 (n : Nat) : String := if n < 10 then "0" ++ toString n else toString n

/-- Zero-padding to three digits. -/
def pad3 (n : Nat) : String :=
  if n < 10 then "00" ++ toString n
  else if n < 100 then "0" ++ toString n
  else toString n

/-- Zero-padding to four digits. -/
def pad4 (n : Nat) : String :=
  if n < 10 then "000" ++ toString n
  else if n < 100 then "00" ++ toString n
  else if n < 1000 then "0" ++ toString n
  else toString n

/-- Zero-padding to six digits. -/
def pad6 (n : Nat) : String :=
  let s := toString n
  let k := s.data.length
  String.mk (List.replicate (6 - k) '0') ++ s

/-- ISO-8601 year field, extended form outside 0..9999. -/
def isoYear (y : Int) : String :=
  if 0 ≤ y ∧ y ≤ 9999 then pad4 y.toNat
  else if y < 0 then "-" ++ pad6 (-y).toNat
  else "+" ++ pad6 y.toNat

/-- `new Date(ms).toISOString()` on integral milliseconds. -/
def toISOString (ms : Int) : String :=
  let days := ms.fdiv 86400000
  let rem := (ms - days * 86400000).toNat
  let ymd := civilFromDays days
  let hh := rem / 3600000
  let mi := rem % 3600000 / 60000
  let ss := rem % 60000 / 1000
  let msf := rem % 1000
  isoYear ymd.1 ++ "-" ++ pad2 ymd.2.1 ++ "-" ++ pad2 ymd.2.2 ++ "T" ++
    pad2 hh ++ ":" ++ pad2 mi ++ ":" ++ pad2 ss ++ "." ++ pad3 msf ++ "Z"

/-- Numeric coercion of a possibly-undefined JSON value for
`new Date(x * 1000)`: `.error ()` stands for a NaN/out-of-range date,
whose `toISOString` throws a `RangeError`.  Non-integral string numbers
and array/object coercions are out of the model's scope. -/
def jsDateMillis (o : Option Json) : Except Unit Int :=
  match o with
  | none => Except.error ()
  | some Json.null => Except.ok 0
  | some (Json.bool b) => Except.ok (if b then 1000 else 0)
  | some (Json.num n) => Except.ok (n * 1000)
  | some (Json.str _) => Except.error ()
  | some (Json.arr _) => Except.error ()
  | some (Json.obj _) => Except.error ()

/-- Range check of `Date#toISOString` (ECMAScript time values span at
most 8.64e15 ms from the epoch). -/
def dateToISO (ms : Int) : Except Unit String :=
  if ms < -8640000000000000 ∨ 8640000000000000 < ms then Except.error ()
  else Except.ok (toISOString ms)

/-! ### Data model (src/interfaces/instagram.interface.ts)

Fields typed `string` in the TypeScript interface are modelled as
`Option String` when a construction site can actually store `undefined`
in them at runtime (e.g. a missing `display_url` in an embedded
payload); `none` is `undefined`/absent. -/

/-- `InstagramPost`: the normalized post record. -/
structure InstagramPost where
  id : Option String := none
  caption : String
  imageUrl : Option String := none
  timestamp : Option String := none
  likes : Option Int := none
  postUrl : Option String := none
deriving DecidableEq, Repr

/-- `InstagramConfig`: target username plus optional API credential. -/
structure InstagramConfig where
  username : String
  accessToken : Option String := none
deriving DecidableEq, Repr

/-- `InstagramResponse`: the tagged retrieval outcome every strategy and
the orchestrator return. -/
structure InstagramResponse where
  success : Bool
  data : Option InstagramPost := none
  error : Option String := none
deriving DecidableEq, Repr

/-- The constructor (lines 24-33): `config?.username ||
process.env.TARGET_USERNAME || 'bbcnews'` and `config?.accessToken ||
process.env.INSTAGRAM_ACCESS_TOKEN`. -/
def mkInstagramConfig (cfgUsername envTargetUsername cfgToken envToken :
    Option String) : InstagramConfig :=
  { username := jsOrStr cfgUsername (jsOrStr envTargetUsername "bbcnews")
    accessToken := jsOrOpt cfgToken envToken }

/-- `setUsername` (lines 39-42): overwrites the target username with the
given string, unvalidated. -/
def setUsername (cfg : InstagramConfig) (username : String) : InstagramConfig :=
  { cfg with username := username }

/-! ### Static retrieval strategy: embedded-state extraction
(`fetchViaCheerio`, lines 481-582)

The three script-content regexes are modelled line-by-line (JavaScript
`.` does not cross line terminators); the greedy trailing literal takes
the last occurrence on the line. -/

/-- The script-tag filter (lines 482-489). -/
def hasDataMarker (text : String) : Bool :=
  containsSub text "window._sharedData" ||
  containsSub text "__d(\"InstagramWebSharedData\"" ||
  containsSub text "window.__additionalDataLoaded"

/-- One line of `/window\._sharedData = (.+);/`. -/
def sharedDataLine (line : List Char) : Option (List Char) :=
  match afterFirstL "window._sharedData = ".data line with
  | none => none
  | some rest =>
    match beforeLastL [';'] rest with
    | none => none
    | some cap => if cap.isEmpty then none else some cap

/-- `content.match(/window\._sharedData = (.+);/)`: first capture. -/
def matchSharedData (content : String) : Option String :=
  ((splitLinesL content.data).findSome? sharedDataLine).map String.mk

/-- One line of `/window\.__additionalDataLoaded\([^,]+,(.+)\);/`. -/
def additionalDataLine (line : List Char) : Option (List Char) :=
  match afterFirstL "window.__additionalDataLoaded(".data line with
  | none => none
  | some rest =>
    match splitFirstL [','] rest with
    | none => none
    | some (before, after) =>
      if before.isEmpty then none
      else
        match beforeLastL ");".data after with
        | none => none
        | some cap => if cap.isEmpty then none else some cap

/-- First capture of the `__additionalDataLoaded` pattern. -/
def matchAdditionalData (content : String) : Option String :=
  ((splitLinesL content.data).findSome? additionalDataLine).map String.mk

/-- One line of `/__d\("InstagramWebSharedData",[^{]+({.+})\);/`. -/
def webSharedDataLine (line : List Char) : Option (List Char) :=
  match afterFirstL "__d(\"InstagramWebSharedData\",".data line with
  | none => none
  | some rest =>
    match splitFirstL ['\x7b'] rest with
    | none => none
    | some (before, after) =>
      if before.isEmpty then none
      else
        match beforeLastL "\x7d);".data ('\x7b' :: after) with
        | none => none
        | some cap => if cap.length < 2 then none else some (cap ++ ['\x7d'])

/-- First capture of the `InstagramWebSharedData` pattern. -/
def matchWebSharedData (content : String) : Option String :=
  ((splitLinesL content.data).findSome? webSharedDataLine).map String.mk

/-- `user.edge_owner_to_timeline_media?.edges` for a truthy `user`
value (the common tail of the three nesting-path attempts,
lines 541/546/551). -/
def edgeListOf (user : Option Json) : Except Unit (Option Json) := do
  let eotm ← jaccess user "edge_owner_to_timeline_media"
  pure (jchain eotm "edges")

/-- First nesting-path attempt (lines 539-542):
`jsonData.entry_data?.ProfilePage?.[0]?.graphql?.user`. -/
def edgesStep1 (jd : Option Json) : Except Unit (Option Json) := do
  let entryData ← jaccess jd "entry_data"
  let path1 := jchain (jchain (jchainIdx (jchain entryData "ProfilePage") 0) "graphql") "user"
  if jsTruthy path1 then edgeListOf path1 else pure none

/-- Second nesting-path attempt (lines 544-547): `jsonData.user`,
tried only while no edge list was found. -/
def edgesStep2 (jd : Option Json) (edges : Option Json) : Except Unit (Option Json) :=
  if jsTruthy edges = false then do
    let u ← jaccess jd "user"
    if jsTruthy u then edgeListOf u else pure edges
  else pure edges

/-- Third nesting-path attempt (lines 549-552): `jsonData.data?.user`. -/
def edgesStep3 (jd : Option Json) (edges : Option Json) : Except Unit (Option Json) :=
  if jsTruthy edges = false then do
    let d ← jaccess jd "data"
    let u := jchain d "user"
    if jsTruthy u then edgeListOf u else pure edges
  else pure edges

/-- The field mapping of lines 554-568: take the first post edge and
build the `InstagramPost`. -/
def buildPostFromEdges (edges : Option Json) : Except Unit (Option InstagramPost) := do
  let latestPost ← jaccess (jsIndex edges 0) "node"
  let idVal ← jaccess latestPost "id"
  let emc ← jaccess latestPost "edge_media_to_caption"
  let captionVal := jchain (jchain (jchainIdx (jchain emc "edges") 0) "node") "text"
  let displayUrl ← jaccess latestPost "display_url"
  let takenAt ← jaccess latestPost "taken_at_timestamp"
  let ms ← jsDateMillis takenAt
  let iso ← dateToISO ms
  let elb ← jaccess latestPost "edge_liked_by"
  let likesVal := jchain elb "count"
  let shortcode ← jaccess latestPost "shortcode"
  let post : InstagramPost :=
    { id := asStrOpt idVal
      caption := jsOrStr (asStrOpt captionVal) "No caption"
      imageUrl := asStrOpt displayUrl
      timestamp := some iso
      likes := match likesVal with
        | some (Json.num n) => some n
        | _ => none
      postUrl := some ("https://www.instagram.com/p/" ++ jsTemplate shortcode ++ "/") }
  pure (some post)

/-- The extraction of lines 535-575 (inner `try`): look for a
user/media edge list at the known nesting paths and build the post.
`.error ()` models a `TypeError`/`RangeError` thrown inside the inner
`try` (caught at line 570); `.ok none` means no usable edge list was
found. -/
def extractPostDataE (jsonData : Json) : Except Unit (Option InstagramPost) := do
  let jd : Option Json := some jsonData
  let e1 ← edgesStep1 jd
  let e2 ← edgesStep2 jd e1
  let edges ← edgesStep3 jd e2
  if jsTruthy edges ∧ 0 < jsLen edges then buildPostFromEdges edges
  else pure none

/-- Inner-`try` collapse: a thrown extraction error is logged and the
scan continues with the next script tag. -/
def extractPostData (jsonData : Json) : Option InstagramPost :=
  match extractPostDataE jsonData with
  | Except.ok r => r
  | Except.error _ => none

/-- One unguarded pattern stage of lines 502-516: if the regex matched,
parse the capture (`.error ()` models a thrown `SyntaxError`, which
reaches the per-tag `catch`); otherwise `jsonData` keeps its previous
value. -/
def parseStage (m : Option String) (jd : Option Json) : Except Unit (Option Json) :=
  match m with
  | some cap =>
    match jsonParse cap with
    | some j => Except.ok (some j)
    | none => Except.error ()
  | none => Except.ok jd

/-- The guarded third pattern stage (lines 518-532): a parse failure is
caught locally and leaves `jsonData` unchanged. -/
def parseStageGuarded (m : Option String) (jd : Option Json) : Option Json :=
  match m with
  | some cap =>
    match jsonParse cap with
    | some j => some j
    | none => jd
  | none => jd

/-- Extraction entry for a truthy parsed payload (lines 534-576). -/
def extractStage (jd : Option Json) : Option InstagramResponse :=
  if jsTruthy jd then
    match jd with
    | some j =>
      (extractPostData j).map (fun post => { success := true, data := some post })
    | none => none
  else none

/-- Processing of one data-bearing script tag (lines 496-581): try the
three assignment patterns in order on the tag's content, parse the
first match as JSON, and extract.  `none` means the tag yielded nothing
(no match, a thrown parse error caught by the per-tag `catch`, or a
thrown extraction error caught by the inner `catch`) and the scan moves
on. -/
def processTag (content : String) : Option InstagramResponse :=
  match parseStage (matchSharedData content) none with
  | Except.error _ => none
  | Except.ok jd1 =>
    match
      (if jsTruthy jd1 = false then parseStage (matchAdditionalData content) jd1
       else Except.ok jd1) with
    | Except.error _ => none
    | Except.ok jd2 =>
      extractStage
        (if jsTruthy jd2 = false then parseStageGuarded (matchWebSharedData content) jd2
         else jd2)

/-! ### Static retrieval strategy: HTTP fetch loop and assembly
(`fetchViaCheerio`, lines 398-624) -/

/-- The HTML-parsing boundary (cheerio): the loaded document answers the
three queries the strategy performs.  `scripts` are the text contents of
all script tags in document order; `postAnchors` the href attributes of
anchors matching `a[href*="/p/"]`; `firstInstaImgSrc` the src attribute
of the first `img[src*="instagram"]` (absent when no such image). -/
structure CheerioDoc where
  scripts : List String := []
  postAnchors : List String := []
  firstInstaImgSrc : Option String := none

/-- Observable bookkeeping of one static-strategy run: how many fetch
attempts were made, the backoff waits slept between attempts (ms), and
the username each attempt requested. -/
structure CheStats where
  attempts : Nat
  waits : List Nat
  usernames : List String
deriving DecidableEq, Repr

/-- External boundary of the static strategy: `fetch username i` is the
axios GET of attempt `i` (`.error` = rejected request, `.ok` = response
body); `jitter i` models `Math.random() * 1000` (ms) before retry `i`;
`writeFile` the diagnostic `fs.writeFileSync`; `load` the
`cheerio.load` call. -/
structure CheerioEnv where
  fetch : String → Nat → Except String String
  jitter : Nat → Nat := fun _ => 0
  writeFile : Except String Unit := Except.ok ()
  load : String → Except String CheerioDoc

/-- The retry loop (lines 412-461).  State: `retryCount`; `fuel` is
`maxRetries - retryCount` and only drives the recursion.  An attempt
whose response body is empty throws `Empty response received` inside the
`try` and is therefore retried like a network failure.  Returns the
fetched body (`.ok ""` if the loop were to exit without a break) or the
`Failed after N attempts` error, together with the run's stats. -/
def fetchLoop (env : CheerioEnv) (username : String) (maxRetries : Nat) :
    Nat → Nat → List Nat → List String → Except String String × CheStats
  | 0, retryCount, waits, users =>
    (Except.ok "", ⟨retryCount, waits.reverse, users.reverse⟩)
  | Nat.succ fuel, retryCount, waits, users =>
    if retryCount < maxRetries then
      let users1 := username :: users
      let failStep : String → Except String String × CheStats := fun msg =>
        let rc1 := retryCount + 1
        if maxRetries ≤ rc1 then
          (Except.error ("Failed after " ++ toString maxRetries ++ " attempts: " ++ msg),
            ⟨rc1, waits.reverse, users1.reverse⟩)
        else
          let delay := 2 ^ rc1 * 1000 + env.jitter rc1
          fetchLoop env username maxRetries fuel rc1 (delay :: waits) users1
      match env.fetch username retryCount with
      | Except.ok body =>
        if body ≠ "" then
          (Except.ok body, ⟨retryCount + 1, waits.reverse, users1.reverse⟩)
        else failStep "Empty response received"
      | Except.error msg => failStep msg
    else (Except.ok "", ⟨retryCount, waits.reverse, users.reverse⟩)

/-- The response part of the static strategy after the fetch loop
(lines 463-623), as a function of the loop's outcome: reject
empty/unparseable bodies, scan data-bearing script tags for an embedded
payload, then fall back to direct markup extraction.  Every exit is an
`InstagramResponse` (the whole strategy body sits inside one
`try/catch`). -/
def cheerioRespOf (env : CheerioEnv) (loopRes : Except String String) :
    InstagramResponse :=
  match loopRes with
  | Except.error e => { success := false, error := some ("Cheerio error: " ++ e) }
  | Except.ok html =>
    match env.writeFile with
    | Except.error e => { success := false, error := some ("Cheerio error: " ++ e) }
    | Except.ok _ =>
      if html = "" ∨ String.mk (trimL html.data) = "" then
        { success := false, error := some "Cheerio error: Invalid HTML content received" }
      else
        match env.load html with
        | Except.error e =>
          { success := false,
            error := some ("Cheerio error: Failed to parse HTML with Cheerio: " ++ e) }
        | Except.ok doc =>
          match (doc.scripts.filter hasDataMarker).findSome? processTag with
          | some resp => resp
          | none =>
            match doc.postAnchors with
            | firstPostLink :: _ =>
              let postUrl :=
                if isPrefixL "http".data firstPostLink.data then firstPostLink
                else "https://www.instagram.com" ++ firstPostLink
              match doc.firstInstaImgSrc with
              | some imageUrl =>
                if imageUrl ≠ "" then
                  { success := true,
                    data := some
                      { caption := "Caption not available via direct HTML parsing"
                        imageUrl := some imageUrl
                        postUrl := some postUrl } }
                else
                  { success := false,
                    error := some "Cheerio error: Could not extract Instagram post data using any available method" }
              | none =>
                { success := false,
                  error := some "Cheerio error: Could not extract Instagram post data using any available method" }
            | [] =>
              { success := false,
                error := some "Cheerio error: Could not extract Instagram post data using any available method" }

/-- The static retrieval strategy (`fetchViaCheerio`, lines 398-624):
the fetch loop followed by extraction, paired with the run's observable
stats. -/
def fetchViaCheerio (cfg : InstagramConfig) (env : CheerioEnv) :
    InstagramResponse × CheStats :=
  let loopOut := fetchLoop env cfg.username 3 3 0 [] []
  (cheerioRespOf env loopOut.1, loopOut.2)

/-! ### Browser-driven retrieval strategy (`fetchViaPuppeteer`,
lines 98-392)

Every awaited browser-automation call is an environment field returning
`Except String` (`.error` = rejected promise). -/

/-- The ordered post-link selector cascade (lines 186-197). -/
def postSelectors : List String :=
  ["article a, a[href*=\"/p/\"]",
   "a[href*=\"/p/\"]",
   "div[role=\"button\"] a",
   "main article a",
   "div._aagw a",
   "div._aabd a",
   "div[class*=\"_aa\"] a[href*=\"/p/\"]",
   "a[role=\"link\"][tabindex=\"0\"][href*=\"/p/\"]",
   "main a[href^=\"/p/\"]",
   "div[role=\"presentation\"] a[href^=\"/p/\"]"]

/-- The ordered post-page container selector cascade (lines 243-250). -/
def postPageSelectors : List String :=
  ["article[role=\"presentation\"]",
   "div[role=\"dialog\"]",
   "main article",
   "div._aatk",
   "div[class*=\"_aa\"]",
   "section main"]

/-- The ordered caption selector cascade inside `page.evaluate`
(lines 270-282). -/
def captionSelectors : List String :=
  ["div[role=\"dialog\"] ul li span",
   "article[role=\"presentation\"] ul li span",
   "div[role=\"dialog\"] h1 + div span",
   "article div._a9zs span",
   "h1 + div span",
   "div._a9zs span",
   "span[dir=\"auto\"]",
   "div._ae5q span",
   "div[class*=\"_ae\"] span",
   "div[class*=\"_aa\"] span[dir=\"auto\"]",
   "ul li span[dir=\"auto\"]"]

/-- The ordered image selector cascade inside `page.evaluate`
(lines 299-311). -/
def imageSelectors : List String :=
  ["div[role=\"dialog\"] img[decoding=\"auto\"]",
   "article[role=\"presentation\"] img[decoding=\"auto\"]",
   "div[role=\"dialog\"] img[crossorigin=\"anonymous\"]",
   "article div._aagv img",
   "article img",
   "div._aagv img",
   "div[class*=\"_aa\"] img",
   "div[class*=\"_ab\"] img",
   "img[crossorigin=\"anonymous\"]",
   "img[alt]",
   "img[style*=\"object-fit\"]"]

/-- The ordered time-element selector cascade inside `page.evaluate`
(line 322). -/
def timeSelectors : List String :=
  ["time", "time[datetime]", "div[class*=\"_aa\"] time", "a time"]

/-- A DOM element as observed by the evaluate callback: its text
content, its src attribute, and (for time elements) its `dateTime`
property, which is always a string. -/
structure DomElem where
  textContent : Option String := none
  srcAttr : Option String := none
  dateTime : String := ""
deriving DecidableEq, Repr

/-- The rendered post page as the evaluate callback queries it:
`queryAll sel` is `document.querySelectorAll(sel)` in document order;
`locationHref` is `window.location.href`. -/
structure PostDom where
  queryAll : String → List DomElem := fun _ => []
  locationHref : String := ""

/-- One entry of the `page.$$eval('img', ...)` heuristic fallback
(lines 347-354): src attribute, rendered width/height, alt text. -/
structure ImgInfo where
  src : Option String := none
  width : Nat := 0
  height : Nat := 0
  alt : String := ""
deriving DecidableEq, Repr

/-- External boundary of the browser strategy; each field is one awaited
puppeteer call.  `cookieQuery` tells whether the consent-button probe
found an element; `waitForSelector`/`waitForPostSelector` resolve or
time out per selector; `linksFor sel` gives the raw hrefs collected by
`page.$$eval(sel, ...)`; `evalDom` delivers the rendered post page to
the evaluate callback; `closeBrowser` is the `finally`-block
`browser.close()`. -/
structure PuppeteerEnv where
  launch : Except String Unit := Except.ok ()
  newPage : Except String Unit := Except.ok ()
  setUserAgent : Except String Unit := Except.ok ()
  setExtraHeaders : Except String Unit := Except.ok ()
  setViewport : Except String Unit := Except.ok ()
  gotoNetworkidle : String → Except String Unit := fun _ => Except.ok ()
  gotoDomcontentloaded : String → Except String Unit := fun _ => Except.ok ()
  screenshotProfile : Except String Unit := Except.ok ()
  settleWait : Except String Unit := Except.ok ()
  cookieQuery : Except String Bool := Except.ok false
  cookieClick : Except String Unit := Except.ok ()
  cookieWait : Except String Unit := Except.ok ()
  waitForSelector : String → Except String Unit := fun _ => Except.error "timeout"
  linksFor : String → Except String (List String) := fun _ => Except.ok []
  gotoPost : String → Except String Unit := fun _ => Except.ok ()
  screenshotPost : Except String Unit := Except.ok ()
  postWait : Except String Unit := Except.ok ()
  waitForPostSelector : String → Except String Unit := fun _ => Except.error "timeout"
  screenshotNoPosts : Except String Unit := Except.ok ()
  evalDom : Except String PostDom := Except.error "no dom"
  allImages : Except String (List ImgInfo) := Except.ok []
  closeBrowser : Except String Unit := Except.ok ()

/-- First selector of an ordered cascade whose probe resolves
(the `waitForSelector` loops of lines 202-213 and 253-263). -/
def firstOkSelector (probe : String → Except String Unit) :
    List String → Option String
  | [] => none
  | sel :: rest =>
    match probe sel with
    | Except.ok _ => some sel
    | Except.error _ => firstOkSelector probe rest

/-- Caption lookup of the evaluate callback (lines 284-297): first
selector cascade hit whose element text is longer than 5 characters. -/
def findCaptionElem (dom : PostDom) : Option DomElem :=
  captionSelectors.findSome? (fun sel =>
    (dom.queryAll sel).find? (fun e =>
      match e.textContent with
      | some t => decide (5 < t.data.length)
      | none => false))

/-- Image lookup of the evaluate callback (lines 313-320): first
selector with any match, first element. -/
def findImageElem (dom : PostDom) : Option DomElem :=
  imageSelectors.findSome? (fun sel => (dom.queryAll sel).head?)

/-- Time-element lookup of the evaluate callback (lines 324-328). -/
def findTimeElem (dom : PostDom) : Option DomElem :=
  timeSelectors.findSome? (fun sel => (dom.queryAll sel).head?)

/-- The object returned by `page.evaluate` (lines 334-339). -/
structure PostPageData where
  caption : String
  imageUrl : String
  postUrl : String
  timestamp : Option String
deriving DecidableEq, Repr

/-- The evaluate callback (lines 269-340). -/
def evaluatePostData (dom : PostDom) : PostPageData :=
  { caption :=
      match findCaptionElem dom with
      | some e => jsOrStr e.textContent "No caption"
      | none => "No caption"
    imageUrl :=
      match findImageElem dom with
      | some e => jsOrStr e.srcAttr ""
      | none => ""
    postUrl := dom.locationHref
    timestamp := (findTimeElem dom).map (fun e => e.dateTime) }

/-- The heuristic image filter of lines 356-358: rendered size above
300x300 and a truthy src mentioning instagram. -/
def likelyPostImage (img : ImgInfo) : Bool :=
  decide (300 < img.width) && decide (300 < img.height) &&
  (match img.src with
   | some s => decide (s ≠ "") && containsSub s "instagram"
   | none => false)

/-- Image-URL resolution (lines 344-369): keep a non-empty
selector-extracted URL; otherwise enumerate all images, filter with
`likelyPostImage`, and take the first survivor; throw if none. -/
def resolveImageUrl (env : PuppeteerEnv) (fromSelectors : String) :
    Except String String :=
  if fromSelectors = "" then
    match env.allImages with
    | Except.error e => Except.error e
    | Except.ok allImages =>
      match (allImages.filter likelyPostImage).head? with
      | some img0 => Except.ok (jsOrStr img0.src "")
      | none => Except.error "Could not extract image URL from the post"
  else Except.ok fromSelectors

/-- Post assembly after evaluation (lines 342-376). -/
def puppExtract (env : PuppeteerEnv) (dom : PostDom) :
    Except String InstagramPost := do
  let postData := evaluatePostData dom
  let imageUrl ← resolveImageUrl env postData.imageUrl
  pure { caption := postData.caption
         imageUrl := some imageUrl
         postUrl := some postData.postUrl
         timestamp := some (jsOrStr postData.timestamp "") }

/-- Profile navigation (lines 154-169): on a `networkidle2` failure,
retry once with `domcontentloaded`; a failure of the retry propagates. -/
def navigateProfile (env : PuppeteerEnv) (username : String) :
    Except String Unit :=
  match env.gotoNetworkidle username with
  | Except.ok _ => Except.ok ()
  | Except.error _ => env.gotoDomcontentloaded username

/-- The consent-dialog block (lines 175-184): best-effort, every fault
is swallowed, so this step never throws. -/
def dismissCookieConsent (env : PuppeteerEnv) : Except String Unit :=
  match env.cookieQuery with
  | Except.ok true =>
    (match env.cookieClick with
     | Except.ok _ => (match env.cookieWait with | _ => Except.ok ())
     | Except.error _ => Except.ok ())
  | _ => Except.ok ()

/-- The body of the browser strategy's `try` block after the launch
(lines 118-379): any `.error` is a fault reaching the strategy's
`catch`. -/
def puppBody (username : String) (env : PuppeteerEnv) :
    Except String InstagramResponse := do
  let _ ← env.newPage
  let _ ← env.setUserAgent
  let _ ← env.setExtraHeaders
  let _ ← env.setViewport
  let _ ← navigateProfile env username
  let _ ← env.screenshotProfile
  let _ ← env.settleWait
  let _ ← dismissCookieConsent env
  match firstOkSelector env.waitForSelector postSelectors with
  | none => do
    let _ ← env.screenshotNoPosts
    Except.error "No posts found on the profile after trying all selectors"
  | some workingSelector => do
    let rawLinks ← env.linksFor workingSelector
    match rawLinks.filter (fun href => href ≠ "" && containsSub href "/p/") with
    | [] => Except.error "No post links found on the page"
    | firstLink :: _ => do
      let _ ← env.gotoPost firstLink
      let _ ← env.screenshotPost
      let _ ← env.postWait
      match firstOkSelector env.waitForPostSelector postPageSelectors with
      | none => Except.error "Post page elements not found after trying all selectors"
      | some _ => do
        let dom ← env.evalDom
        let post ← puppExtract env dom
        pure { success := true, data := some post }

/-- The browser-driven strategy (`fetchViaPuppeteer`): `try/catch/finally`.
The `catch` converts any fault from the `try` body into a `Failure`
outcome; the `finally` awaits `browser.close()` whenever the launch
succeeded, and a rejection there supersedes the result and propagates
past the strategy boundary (modelled as `.error`). -/
def fetchViaPuppeteer (username : String) (env : PuppeteerEnv) :
    Except String InstagramResponse :=
  match env.launch with
  | Except.error e =>
    Except.ok { success := false, error := some ("Puppeteer error: " ++ e) }
  | Except.ok _ =>
    let caught : InstagramResponse :=
      match puppBody username env with
      | Except.ok r => r
      | Except.error e => { success := false, error := some ("Puppeteer error: " ++ e) }
    match env.closeBrowser with
    | Except.ok _ => Except.ok caught
    | Except.error e => Except.error e

/-! ### Official-API retrieval strategy (`fetchViaApi`, lines 48-92) -/

/-- One item of the Graph API media collection, with the requested
field set. -/
structure ApiItem where
  id : Option String := none
  caption : Option String := none
  media_url : Option String := none
  permalink : Option String := none
  timestamp : Option String := none
deriving DecidableEq, Repr

/-- External boundary of the API strategy: `get token` models the axios
GET of the media endpoint; `.ok none` models a response whose
`data.data` collection is missing/empty-falsy, `.ok (some items)` a
present collection. -/
structure ApiEnv where
  get : String → Except String (Option (List ApiItem)) := fun _ => Except.error "network"

/-- The official-API strategy (`fetchViaApi`): requires a truthy access
token, takes the first item of the returned collection, maps fields
directly.  Total: every exit is an `InstagramResponse`. -/
def fetchViaApi (cfg : InstagramConfig) (env : ApiEnv) : InstagramResponse :=
  match cfg.accessToken with
  | none => { success := false, error := some "No Instagram access token provided" }
  | some token =>
    if token = "" then
      { success := false, error := some "No Instagram access token provided" }
    else
      match env.get token with
      | Except.error e => { success := false, error := some ("API error: " ++ e) }
      | Except.ok none => { success := false, error := some "No posts found" }
      | Except.ok (some []) => { success := false, error := some "No posts found" }
      | Except.ok (some (latestPost :: _)) =>
        { success := true,
          data := some
            { id := latestPost.id
              caption := jsOrStr latestPost.caption "No caption"
              imageUrl := latestPost.media_url
              timestamp := latestPost.timestamp
              postUrl := latestPost.permalink } }

/-! ### Retrieval orchestrator (`getLatestPost`, lines 631-659) -/

/-- Which strategy ran, in invocation order. -/
inductive StrategyName where
  | puppeteer : StrategyName
  | cheerio : StrategyName
  | api : StrategyName
deriving DecidableEq, Repr

/-- The combined external world of one `getLatestPost` call. -/
structure Env where
  pupp : PuppeteerEnv := {}
  che : CheerioEnv := { fetch := fun _ _ => Except.error "network",
                        load := fun _ => Except.error "parse" }
  api : ApiEnv := {}

/-- Observables of one orchestrator call: the outcome (`.error` = an
exception escaped `getLatestPost` itself), the strategies invoked in
order, and the static strategy's fetch stats when it ran. -/
structure CascadeRun where
  result : Except String InstagramResponse
  trace : List StrategyName
  cheStats : Option CheStats

/-- The aggregated exhaustion outcome (lines 655-658). -/
def allFailedResp : InstagramResponse :=
  { success := false,
    error := some "Failed to fetch Instagram data using all available methods" }

/-- The cascade after the browser strategy has returned a non-success
outcome (lines 640-658): run the static strategy, then — only when the
configured credential is truthy — the official API, and fall back to
the aggregated exhaustion failure. -/
def cascadeRest (cfg1 : InstagramConfig) (env : Env) : CascadeRun :=
  let cheOut := fetchViaCheerio cfg1 env.che
  if cheOut.1.success then
    { result := Except.ok cheOut.1,
      trace := [StrategyName.puppeteer, StrategyName.cheerio],
      cheStats := some cheOut.2 }
  else if optTruthy cfg1.accessToken then
    let apiResult := fetchViaApi cfg1 env.api
    if apiResult.success then
      { result := Except.ok apiResult,
        trace := [StrategyName.puppeteer, StrategyName.cheerio, StrategyName.api],
        cheStats := some cheOut.2 }
    else
      { result := Except.ok allFailedResp,
        trace := [StrategyName.puppeteer, StrategyName.cheerio, StrategyName.api],
        cheStats := some cheOut.2 }
  else
    { result := Except.ok allFailedResp,
      trace := [StrategyName.puppeteer, StrategyName.cheerio],
      cheStats := some cheOut.2 }

/-- The strategy cascade.  `midUpdate` models a `setUsername` call
delivered on the JavaScript event loop at the await boundary right
after the browser strategy finishes (the service keeps no snapshot:
every strategy re-reads `this.config` when it runs); `none` is an
undisturbed call. -/
def getLatestPostAux (cfg : InstagramConfig) (midUpdate : Option String)
    (env : Env) : CascadeRun :=
  match fetchViaPuppeteer cfg.username env.pupp with
  | Except.error e =>
    { result := Except.error e, trace := [StrategyName.puppeteer], cheStats := none }
  | Except.ok puppeteerResult =>
    if puppeteerResult.success then
      { result := Except.ok puppeteerResult, trace := [StrategyName.puppeteer],
        cheStats := none }
    else
      cascadeRest
        (match midUpdate with
         | some u => setUsername cfg u
         | none => cfg) env

/-- `getLatestPost`: run the browser strategy, then the static strategy,
then (token permitting) the official API, short-circuiting on first
success. -/
def getLatestPost (cfg : InstagramConfig) (env : Env) : CascadeRun :=
  getLatestPostAux cfg none env

/-! ### Verification helpers -/

/-- A retrieval outcome populating exactly one variant: a success
carries a record and no error; a failure carries an error and no
record. -/
def wellFormedResp (r : InstagramResponse) : Prop :=
  (r.success = true → r.data.isSome = true ∧ r.error = none) ∧
  (r.success = false → r.error.isSome = true ∧ r.data = none)

lemma jsOrStr_ne_empty (o : Option String) (d : String) (hd : d ≠ "") :
    jsOrStr o d ≠ "" := by
  cases o with
  | none => simpa [jsOrStr] using hd
  | some s => by_cases h : s = "" <;> simp [jsOrStr, h, hd]

lemma exceptBind_ok {ε α β : Type} {x : Except ε α} {f : α → Except ε β} {b : β}
    (h : (x >>= f) = Except.ok b) : ∃ a, x = Except.ok a ∧ f a = Except.ok b := by
  cases x with
  | ok a => exact ⟨a, rfl, h⟩
  | error e => exact nomatch h

lemma findSome?_exists {α β : Type} {f : α → Option β} :
    ∀ {l : List α} {b : β}, l.findSome? f = some b → ∃ a, a ∈ l ∧ f a = some b := by
  intro l
  induction l with
  | nil => intro b h; rw [List.findSome?_nil] at h; exact nomatch h
  | cons a as ih =>
    intro b h
    rw [List.findSome?_cons] at h
    revert h
    match hfa : f a with
    | some c => intro h; exact ⟨a, List.mem_cons_self a as, by rw [hfa]; exact h⟩
    | none =>
      intro h
      obtain ⟨x, hx, hfx⟩ := ih h
      exact ⟨x, List.mem_cons_of_mem a hx, hfx⟩

lemma findSome?_eq_none_of_forall {α β : Type} {f : α → Option β} :
    ∀ {l : List α}, (∀ a ∈ l, f a = none) → l.findSome? f = none := by
  intro l
  induction l with
  | nil => intro _; exact List.findSome?_nil
  | cons a as ih =>
    intro hall
    rw [List.findSome?_cons, hall a (List.mem_cons_self a as)]
    exact ih (fun x hx => hall x (List.mem_cons_of_mem a hx))

lemma findSome?_append_none {α β : Type} {f : α → Option β} :
    ∀ {l₁ l₂ : List α}, l₁.findSome? f = none →
      (l₁ ++ l₂).findSome? f = l₂.findSome? f := by
  intro l₁
  induction l₁ with
  | nil => intro l₂ _; rfl
  | cons a as ih =>
    intro l₂ h
    rw [List.findSome?_cons] at h
    rw [List.cons_append, List.findSome?_cons]
    revert h
    match hfa : f a with
    | some c => intro h; exact nomatch h
    | none => intro h; exact ih h

lemma buildPostFromEdges_post {edges : Option Json} {post : InstagramPost}
    (h : buildPostFromEdges edges = Except.ok (some post)) :
    post.caption ≠ "" ∧ post.timestamp.isSome = true := by
  unfold buildPostFromEdges at h
  obtain ⟨latestPost, -, h⟩ := exceptBind_ok h
  obtain ⟨idVal, -, h⟩ := exceptBind_ok h
  obtain ⟨emc, -, h⟩ := exceptBind_ok h
  obtain ⟨displayUrl, -, h⟩ := exceptBind_ok h
  obtain ⟨takenAt, -, h⟩ := exceptBind_ok h
  obtain ⟨ms, -, h⟩ := exceptBind_ok h
  obtain ⟨iso, -, h⟩ := exceptBind_ok h
  obtain ⟨elb, -, h⟩ := exceptBind_ok h
  obtain ⟨shortcode, -, h⟩ := exceptBind_ok h
  simp only [pure, Except.pure, Except.ok.injEq, Option.some.injEq] at h
  subst h
  exact ⟨jsOrStr_ne_empty _ _ (by decide), rfl⟩

lemma extractPostData_post {j : Json} {post : InstagramPost}
    (h : extractPostData j = some post) :
    post.caption ≠ "" ∧ post.timestamp.isSome = true := by
  unfold extractPostData at h
  revert h
  match hE : extractPostDataE j with
  | Except.error e => intro h; exact nomatch h
  | Except.ok r =>
    intro h
    cases r with
    | none => exact nomatch h
    | some p =>
      cases h
      unfold extractPostDataE at hE
      obtain ⟨e1, -, hE⟩ := exceptBind_ok hE
      obtain ⟨e2, -, hE⟩ := exceptBind_ok hE
      obtain ⟨edges, -, hE⟩ := exceptBind_ok hE
      split at hE
      · exact buildPostFromEdges_post hE
      · exact nomatch hE

lemma extractStage_shape {jd : Option Json} {resp : InstagramResponse}
    (h : extractStage jd = some resp) :
    ∃ post, resp = { success := true, data := some post, error := none } ∧
      post.caption ≠ "" ∧ post.timestamp.isSome = true := by
  unfold extractStage at h
  split at h
  · split at h
    · rw [Option.map_eq_some'] at h
      obtain ⟨post, hpost, hresp⟩ := h
      exact ⟨post, hresp.symm, extractPostData_post hpost⟩
    · exact nomatch h
  · exact nomatch h

lemma processTag_shape {c : String} {resp : InstagramResponse}
    (h : processTag c = some resp) :
    ∃ post, resp = { success := true, data := some post, error := none } ∧
      post.caption ≠ "" ∧ post.timestamp.isSome = true := by
  unfold processTag at h
  split at h
  · exact nomatch h
  · split at h
    · exact nomatch h
    · exact extractStage_shape h

lemma cheerioRespOf_shape (env : CheerioEnv) (x : Except String String) :
    wellFormedResp (cheerioRespOf env x) ∧
    ((cheerioRespOf env x).success = true →
      ∃ p, (cheerioRespOf env x).data = some p ∧ p.caption ≠ "") := by
  cases x with
  | error e => simp [cheerioRespOf, wellFormedResp]
  | ok html =>
    cases hw : env.writeFile with
    | error e => simp [cheerioRespOf, hw, wellFormedResp]
    | ok u =>
      by_cases hh : (html = "" ∨ String.mk (trimL html.data) = "")
      · simp [cheerioRespOf, hw, hh, wellFormedResp]
      · cases hload : env.load html with
        | error e => simp [cheerioRespOf, hw, hh, hload, wellFormedResp]
        | ok doc =>
          cases hfs : (doc.scripts.filter hasDataMarker).findSome? processTag with
          | some resp =>
            obtain ⟨s, -, hs⟩ := findSome?_exists hfs
            obtain ⟨post, hresp, hcap, -⟩ := processTag_shape hs
            subst hresp
            simp [cheerioRespOf, hw, hh, hload, hfs, wellFormedResp, hcap]
          | none =>
            cases hanch : doc.postAnchors with
            | nil => simp [cheerioRespOf, hw, hh, hload, hfs, hanch, wellFormedResp]
            | cons l t =>
              cases himg : doc.firstInstaImgSrc with
              | none =>
                simp [cheerioRespOf, hw, hh, hload, hfs, hanch, himg, wellFormedResp]
              | some imageUrl =>
                by_cases hiu : imageUrl = ""
                · simp [cheerioRespOf, hw, hh, hload, hfs, hanch, himg, hiu,
                    wellFormedResp]
                · simp [cheerioRespOf, hw, hh, hload, hfs, hanch, himg, hiu,
                    wellFormedResp]

lemma fetchViaCheerio_shape (cfg : InstagramConfig) (env : CheerioEnv) :
    wellFormedResp (fetchViaCheerio cfg env).1 ∧
    ((fetchViaCheerio cfg env).1.success = true →
      ∃ p, (fetchViaCheerio cfg env).1.data = some p ∧ p.caption ≠ "") :=
  cheerioRespOf_shape env (fetchLoop env cfg.username 3 3 0 [] []).1

lemma evaluatePostData_caption_ne (dom : PostDom) :
    (evaluatePostData dom).caption ≠ "" := by
  unfold evaluatePostData
  cases h : findCaptionElem dom with
  | none => simp [h]
  | some e =>
    simp only [h]
    exact jsOrStr_ne_empty _ _ (by decide)

lemma head?_mem {α : Type} {l : List α} {a : α} (h : l.head? = some a) : a ∈ l := by
  cases l with
  | nil => exact nomatch h
  | cons x t =>
    injection h with h2
    subst h2
    exact List.mem_cons_self x t

lemma resolveImageUrl_ne {env : PuppeteerEnv} {u s : String}
    (h : resolveImageUrl env u = Except.ok s) : s ≠ "" := by
  unfold resolveImageUrl at h
  split at h
  · split at h
    · exact nomatch h
    · split at h
      · next img0 heq =>
        simp only [Except.ok.injEq] at h
        subst h
        have hpred := (List.mem_filter.mp (head?_mem heq)).2
        unfold likelyPostImage at hpred
        revert hpred
        cases hsrc : img0.src with
        | none => intro hpred; simp at hpred
        | some s0 =>
          intro hpred
          simp only [Bool.and_eq_true, decide_eq_true_eq] at hpred
          have hs : s0 ≠ "" := hpred.2.1
          simp [jsOrStr, hsrc, hs]
      · exact nomatch h
  · next hne =>
    simp only [Except.ok.injEq] at h
    subst h
    exact hne

lemma puppExtract_ok {env : PuppeteerEnv} {dom : PostDom} {post : InstagramPost}
    (h : puppExtract env dom = Except.ok post) :
    post.caption = (evaluatePostData dom).caption ∧
    post.timestamp = some (jsOrStr (evaluatePostData dom).timestamp "") ∧
    ∃ s, post.imageUrl = some s ∧ s ≠ "" := by
  unfold puppExtract at h
  obtain ⟨imageUrl, himg, h⟩ := exceptBind_ok h
  simp only [pure, Except.pure, Except.ok.injEq] at h
  subst h
  exact ⟨rfl, rfl, imageUrl, rfl, resolveImageUrl_ne himg⟩

lemma puppBody_ok {username : String} {env : PuppeteerEnv} {r : InstagramResponse}
    (h : puppBody username env = Except.ok r) :
    ∃ dom post, env.evalDom = Except.ok dom ∧ puppExtract env dom = Except.ok post ∧
      r = { success := true, data := some post } := by
  unfold puppBody at h
  obtain ⟨_, -, h⟩ := exceptBind_ok h
  obtain ⟨_, -, h⟩ := exceptBind_ok h
  obtain ⟨_, -, h⟩ := exceptBind_ok h
  obtain ⟨_, -, h⟩ := exceptBind_ok h
  obtain ⟨_, -, h⟩ := exceptBind_ok h
  obtain ⟨_, -, h⟩ := exceptBind_ok h
  obtain ⟨_, -, h⟩ := exceptBind_ok h
  obtain ⟨_, -, h⟩ := exceptBind_ok h
  split at h
  · obtain ⟨_, -, h⟩ := exceptBind_ok h
    exact nomatch h
  · obtain ⟨links, -, h⟩ := exceptBind_ok h
    split at h
    · exact nomatch h
    · obtain ⟨_, -, h⟩ := exceptBind_ok h
      obtain ⟨_, -, h⟩ := exceptBind_ok h
      obtain ⟨_, -, h⟩ := exceptBind_ok h
      split at h
      · exact nomatch h
      · obtain ⟨dom, hdom, h⟩ := exceptBind_ok h
        obtain ⟨post, hpost, h⟩ := exceptBind_ok h
        simp only [pure, Except.pure, Except.ok.injEq] at h
        exact ⟨dom, post, hdom, hpost, h.symm⟩

lemma fetchViaPuppeteer_ok {username : String} {env : PuppeteerEnv}
    {r : InstagramResponse} (h : fetchViaPuppeteer username env = Except.ok r) :
    wellFormedResp r ∧
    (r.success = true →
      ∃ dom post, env.evalDom = Except.ok dom ∧ puppExtract env dom = Except.ok post ∧
        r = { success := true, data := some post } ∧
        post.caption ≠ "" ∧ ∃ s, post.imageUrl = some s ∧ s ≠ "") := by
  unfold fetchViaPuppeteer at h
  cases hl : env.launch with
  | error e =>
    simp only [hl, Except.ok.injEq] at h
    subst h
    simp [wellFormedResp]
  | ok u =>
    simp only [hl] at h
    cases hc : env.closeBrowser with
    | error e =>
      simp only [hc] at h
      exact nomatch h
    | ok u2 =>
      simp only [hc] at h
      cases hb : puppBody username env with
      | ok rb =>
        simp only [hb, Except.ok.injEq] at h
        subst h
        obtain ⟨dom, post, hdom, hpost, hr2⟩ := puppBody_ok hb
        subst hr2
        obtain ⟨hcap, -, himg⟩ := puppExtract_ok hpost
        refine ⟨by simp [wellFormedResp], fun _ => ⟨dom, post, hdom, hpost, rfl, ?_, himg⟩⟩
        rw [hcap]
        exact evaluatePostData_caption_ne dom
      | error e =>
        simp only [hb, Except.ok.injEq] at h
        subst h
        simp [wellFormedResp]

lemma fetchViaPuppeteer_total {username : String} {env : PuppeteerEnv}
    (hc : env.closeBrowser = Except.ok ()) :
    ∃ r, fetchViaPuppeteer username env = Except.ok r := by
  unfold fetchViaPuppeteer
  cases hl : env.launch with
  | error e => exact ⟨_, rfl⟩
  | ok u =>
    rw [hc]
    exact ⟨_, rfl⟩

lemma fetchViaApi_shape (cfg : InstagramConfig) (env : ApiEnv) :
    wellFormedResp (fetchViaApi cfg env) ∧
    ((fetchViaApi cfg env).success = true →
      ∃ p, (fetchViaApi cfg env).data = some p ∧ p.caption ≠ "") := by
  unfold fetchViaApi
  split
  · simp [wellFormedResp]
  · split
    · simp [wellFormedResp]
    · split
      · simp [wellFormedResp]
      · simp [wellFormedResp]
      · simp [wellFormedResp]
      · simp [wellFormedResp]
        exact jsOrStr_ne_empty _ _ (by decide)

lemma fetchLoop_usernames_mem (env : CheerioEnv) (u : String) (m : Nat) :
    ∀ (fuel rc : Nat) (ws : List Nat) (us : List String) (s : String),
      s ∈ (fetchLoop env u m fuel rc ws us).2.usernames → s = u ∨ s ∈ us := by
  intro fuel
  induction fuel with
  | zero =>
    intro rc ws us s hs
    simp [fetchLoop] at hs
    exact Or.inr hs
  | succ fuel ih =>
    intro rc ws us s hs
    by_cases hrc : rc < m
    · cases hf : env.fetch u rc with
      | ok body =>
        by_cases hb : body = ""
        · by_cases hm : m ≤ rc + 1
          · simp [fetchLoop, hrc, hf, hb, hm] at hs
            rcases hs with h | h
            · exact Or.inr h
            · exact Or.inl h
          · simp [fetchLoop, hrc, hf, hb, hm] at hs
            rcases ih _ _ _ _ hs with h | h
            · exact Or.inl h
            · rcases List.mem_cons.mp h with h2 | h2
              · exact Or.inl h2
              · exact Or.inr h2
        · simp [fetchLoop, hrc, hf, hb] at hs
          rcases hs with h | h
          · exact Or.inr h
          · exact Or.inl h
      | error msg =>
        by_cases hm : m ≤ rc + 1
        · simp [fetchLoop, hrc, hf, hm] at hs
          rcases hs with h | h
          · exact Or.inr h
          · exact Or.inl h
        · simp [fetchLoop, hrc, hf, hm] at hs
          rcases ih _ _ _ _ hs with h | h
          · exact Or.inl h
          · rcases List.mem_cons.mp h with h2 | h2
            · exact Or.inl h2
            · exact Or.inr h2
    · simp [fetchLoop, hrc] at hs
      exact Or.inr hs

lemma fetchLoop_usernames_len (env : CheerioEnv) (u : String) (m : Nat) :
    ∀ (fuel rc : Nat) (ws : List Nat) (us : List String),
      us.length ≤ (fetchLoop env u m fuel rc ws us).2.usernames.length := by
  intro fuel
  induction fuel with
  | zero => intro rc ws us; simp [fetchLoop]
  | succ fuel ih =>
    intro rc ws us
    by_cases hrc : rc < m
    · cases hf : env.fetch u rc with
      | ok body =>
        by_cases hb : body = ""
        · by_cases hm : m ≤ rc + 1
          · simp [fetchLoop, hrc, hf, hb, hm]
          · simp only [fetchLoop, hrc, if_true, hf, hb, hm]
            calc us.length ≤ (u :: us).length := by simp
            _ ≤ _ := ih _ _ _
        · simp [fetchLoop, hrc, hf, hb]
      | error msg =>
        by_cases hm : m ≤ rc + 1
        · simp [fetchLoop, hrc, hf, hm]
        · simp only [fetchLoop, hrc, if_true, hf, hm]
          calc us.length ≤ (u :: us).length := by simp
          _ ≤ _ := ih _ _ _
    · simp [fetchLoop, hrc]

lemma fetchLoop_usernames_len_succ (env : CheerioEnv) (u : String) (m : Nat)
    {fuel rc : Nat} {ws : List Nat} {us : List String} (hrc : rc < m) :
    us.length + 1 ≤ (fetchLoop env u m (fuel + 1) rc ws us).2.usernames.length := by
  cases hf : env.fetch u rc with
  | ok body =>
    by_cases hb : body = ""
    · by_cases hm : m ≤ rc + 1
      · simp [fetchLoop, hrc, hf, hb, hm]
      · simp only [fetchLoop, hrc, if_true, hf, hb, hm]
        calc us.length + 1 = (u :: us).length := by simp
        _ ≤ _ := fetchLoop_usernames_len env u m fuel (rc + 1) _ _
    · simp [fetchLoop, hrc, hf, hb]
  | error msg =>
    by_cases hm : m ≤ rc + 1
    · simp [fetchLoop, hrc, hf, hm]
    · simp only [fetchLoop, hrc, if_true, hf, hm]
      calc us.length + 1 = (u :: us).length := by simp
      _ ≤ _ := fetchLoop_usernames_len env u m fuel (rc + 1) _ _

lemma allFailedResp_wellFormed : wellFormedResp allFailedResp := by
  simp [wellFormedResp, allFailedResp]

lemma cascadeRest_ok_wellFormed {cfg1 : InstagramConfig} {env : Env}
    {r : InstagramResponse} (h : (cascadeRest cfg1 env).result = Except.ok r) :
    wellFormedResp r := by
  unfold cascadeRest at h
  cases hcs : (fetchViaCheerio cfg1 env.che).1.success with
  | true =>
    simp [hcs] at h
    subst h
    exact (fetchViaCheerio_shape cfg1 env.che).1
  | false =>
    cases hot : optTruthy cfg1.accessToken with
    | true =>
      cases has : (fetchViaApi cfg1 env.api).success with
      | true =>
        simp [hcs, hot, has] at h
        subst h
        exact (fetchViaApi_shape cfg1 env.api).1
      | false =>
        simp [hcs, hot, has] at h
        subst h
        exact allFailedResp_wellFormed
    | false =>
      simp [hcs, hot] at h
      subst h
      exact allFailedResp_wellFormed

lemma cascadeRest_total (cfg1 : InstagramConfig) (env : Env) :
    ∃ r, (cascadeRest cfg1 env).result = Except.ok r := by
  unfold cascadeRest
  cases hcs : (fetchViaCheerio cfg1 env.che).1.success with
  | true => exact ⟨(fetchViaCheerio cfg1 env.che).1, by simp [hcs]⟩
  | false =>
    cases hot : optTruthy cfg1.accessToken with
    | true =>
      cases has : (fetchViaApi cfg1 env.api).success with
      | true => exact ⟨fetchViaApi cfg1 env.api, by simp [hcs, hot, has]⟩
      | false => exact ⟨allFailedResp, by simp [hcs, hot, has]⟩
    | false => exact ⟨allFailedResp, by simp [hcs, hot]⟩

lemma getLatestPostAux_ok_wellFormed {cfg : InstagramConfig} {mid : Option String}
    {env : Env} {r : InstagramResponse}
    (h : (getLatestPostAux cfg mid env).result = Except.ok r) : wellFormedResp r := by
  unfold getLatestPostAux at h
  cases hp : fetchViaPuppeteer cfg.username env.pupp with
  | error e => simp [hp] at h
  | ok pr =>
    cases hs : pr.success with
    | true =>
      simp [hp, hs] at h
      subst h
      exact (fetchViaPuppeteer_ok hp).1
    | false =>
      simp only [hp, hs] at h
      simp at h
      exact cascadeRest_ok_wellFormed h

lemma getLatestPostAux_total {cfg : InstagramConfig} {mid : Option String}
    {env : Env} (hc : env.pupp.closeBrowser = Except.ok ()) :
    ∃ r, (getLatestPostAux cfg mid env).result = Except.ok r := by
  obtain ⟨pr, hp⟩ := @fetchViaPuppeteer_total cfg.username env.pupp hc
  unfold getLatestPostAux
  rw [hp]
  cases hs : pr.success with
  | true => exact ⟨pr, by simp [hs]⟩
  | false =>
    obtain ⟨r, hr⟩ := cascadeRest_total
      (match mid with
       | some u => setUsername cfg u
       | none => cfg) env
    exact ⟨r, by simp [hs]; exact hr⟩

/-! ### Concrete fixtures

Small closed environments and documents used to instantiate the claim
theorems and to exhibit counterexamples. -/

/-- A configuration built with no explicit values and an empty process
environment: username defaults to bbcnews, no credential. -/
def cfgDefault : InstagramConfig := mkInstagramConfig none none none none

/-- The embedded payload of the spec's extraction test vector: one post
edge with id X, caption edge text hello, display_url http://img,
taken_at_timestamp 0, shortcode abc. -/
def goodPayload : String :=
  "\x7b\"entry_data\":\x7b\"ProfilePage\":[\x7b\"graphql\":\x7b\"user\":\x7b\"edge_owner_to_timeline_media\":\x7b\"edges\":[\x7b\"node\":\x7b\"id\":\"X\",\"edge_media_to_caption\":\x7b\"edges\":[\x7b\"node\":\x7b\"text\":\"hello\"\x7d\x7d]\x7d,\"display_url\":\"http://img\",\"taken_at_timestamp\":0,\"shortcode\":\"abc\"\x7d\x7d]\x7d\x7d\x7d\x7d]\x7d\x7d"

/-- A script tag carrying `goodPayload` in the `window._sharedData`
assignment pattern. -/
def goodScript : String := "window._sharedData = " ++ goodPayload ++ ";"

/-- The post the static strategy extracts from `goodPayload`. -/
def goodPost : InstagramPost :=
  { id := some "X", caption := "hello", imageUrl := some "http://img",
    timestamp := some "1970-01-01T00:00:00.000Z", likes := none,
    postUrl := some "https://www.instagram.com/p/abc/" }

/-- The success outcome carrying `goodPost`. -/
def goodResp : InstagramResponse := { success := true, data := some goodPost }

/-- A profile document whose only script is `goodScript`. -/
def goodDoc : CheerioDoc := { scripts := [goodScript] }

/-- A non-empty fetched body standing for the profile markup. -/
def goodHtml : String := "<html>profile</html>"

/-- A static-strategy environment whose fetch succeeds immediately with
`goodHtml` and whose parser yields `goodDoc`. -/
def goodCheEnv : CheerioEnv :=
  { fetch := fun _ _ => Except.ok goodHtml, load := fun _ => Except.ok goodDoc }

/-- `goodPayload` with an empty `display_url`. -/
def emptyImgPayload : String :=
  "\x7b\"entry_data\":\x7b\"ProfilePage\":[\x7b\"graphql\":\x7b\"user\":\x7b\"edge_owner_to_timeline_media\":\x7b\"edges\":[\x7b\"node\":\x7b\"id\":\"X\",\"edge_media_to_caption\":\x7b\"edges\":[\x7b\"node\":\x7b\"text\":\"hello\"\x7d\x7d]\x7d,\"display_url\":\"\",\"taken_at_timestamp\":0,\"shortcode\":\"abc\"\x7d\x7d]\x7d\x7d\x7d\x7d]\x7d\x7d"

/-- A script tag carrying `emptyImgPayload`. -/
def emptyImgScript : String := "window._sharedData = " ++ emptyImgPayload ++ ";"

/-- A profile document whose only script is `emptyImgScript`. -/
def emptyImgDoc : CheerioDoc := { scripts := [emptyImgScript] }

/-- A static-strategy environment delivering `emptyImgDoc`. -/
def emptyImgEnv : CheerioEnv :=
  { fetch := fun _ _ => Except.ok goodHtml, load := fun _ => Except.ok emptyImgDoc }

/-- The post extracted from `emptyImgPayload`: a Success whose imageUrl
is the empty string. -/
def emptyImgPost : InstagramPost :=
  { id := some "X", caption := "hello", imageUrl := some "",
    timestamp := some "1970-01-01T00:00:00.000Z", likes := none,
    postUrl := some "https://www.instagram.com/p/abc/" }

/-- A static-strategy environment whose every fetch attempt yields an
empty body. -/
def envEmptyBody : CheerioEnv :=
  { fetch := fun _ _ => Except.ok "", load := fun _ => Except.error "unused" }

/-- A rendered post page with caption, image and time elements. -/
def happyDom : PostDom :=
  { queryAll := fun sel =>
      if sel = "time" then [{ dateTime := "2024-01-01T00:00:00.000Z" }]
      else if sel = "article img" then
        [{ srcAttr := some "https://cdn.instagram.com/img.jpg" }]
      else if sel = "span[dir=\"auto\"]" then
        [{ textContent := some "hello world caption" }]
      else []
    locationHref := "https://www.instagram.com/p/xyz/" }

/-- A browser environment on which the browser strategy fully
succeeds. -/
def puppHappyEnv : PuppeteerEnv :=
  { waitForSelector := fun _ => Except.ok ()
    linksFor := fun _ => Except.ok ["https://www.instagram.com/p/xyz/"]
    waitForPostSelector := fun _ => Except.ok ()
    evalDom := Except.ok happyDom }

/-- The post the browser strategy extracts from `happyDom`. -/
def puppHappyPost : InstagramPost :=
  { caption := "hello world caption",
    imageUrl := some "https://cdn.instagram.com/img.jpg",
    timestamp := some "2024-01-01T00:00:00.000Z",
    postUrl := some "https://www.instagram.com/p/xyz/" }

/-- The success outcome carrying `puppHappyPost`. -/
def puppHappyResp : InstagramResponse := { success := true, data := some puppHappyPost }

/-- `happyDom` without any time element: no timestamp selector
matches. -/
def noTimeDom : PostDom :=
  { queryAll := fun sel =>
      if sel = "article img" then
        [{ srcAttr := some "https://cdn.instagram.com/img.jpg" }]
      else if sel = "span[dir=\"auto\"]" then
        [{ textContent := some "hello world caption" }]
      else []
    locationHref := "https://www.instagram.com/p/xyz/" }

/-- A browser environment succeeding on `noTimeDom`. -/
def puppNoTimeEnv : PuppeteerEnv :=
  { waitForSelector := fun _ => Except.ok ()
    linksFor := fun _ => Except.ok ["https://www.instagram.com/p/xyz/"]
    waitForPostSelector := fun _ => Except.ok ()
    evalDom := Except.ok noTimeDom }

/-- A browser environment whose launch rejects: the strategy fails with
a converted Failure. -/
def puppFailEnv : PuppeteerEnv := { launch := Except.error "blocked" }

/-- A browser environment whose page crashes and whose `finally`-block
`browser.close()` also rejects. -/
def puppCloseFailEnv : PuppeteerEnv :=
  { newPage := Except.error "page crash", closeBrowser := Except.error "close failed" }

end InstagramRetrieval

deriving instance DecidableEq for Except

set_option maxRecDepth 40000

namespace InstagramRetrieval

/-! ### Claim theorems -/

/-- A static-strategy environment whose fetch fails twice with a
connection reset and then succeeds with the good document. -/
def cheRetryEnv : CheerioEnv :=
  { fetch := fun _ i => if i < 2 then Except.error "ECONNRESET" else Except.ok goodHtml
    load := fun _ => Except.ok goodDoc }

lemma processTag_good : processTag goodScript = some goodResp := by decide

lemma hasDataMarker_good : hasDataMarker goodScript = true := by decide

/-- The post extracted from `noTimeDom`: present but empty timestamp. -/
def noTimePost : InstagramPost :=
  { caption := "hello world caption",
    imageUrl := some "https://cdn.instagram.com/img.jpg",
    timestamp := some "",
    postUrl := some "https://www.instagram.com/p/xyz/" }

/-- The success outcome carrying `noTimePost`. -/
def noTimeResp : InstagramResponse := { success := true, data := some noTimePost }

/-- The converted failure the browser strategy returns on
`puppFailEnv`. -/
def puppBlockedResp : InstagramResponse :=
  { success := false, error := some "Puppeteer error: blocked" }

/-- A world in which every strategy fails: the browser launch is
blocked and every HTTP fetch rejects with a network error. -/
def envAllFail : Env := { pupp := puppFailEnv }

/-- C1: the Browser-Driven Strategy always runs first; a Success from
it is returned immediately with neither other strategy invoked; when it
returns a non-success outcome the Static Strategy runs, and a Static
Success is returned without invoking the Official-API Strategy; the
Official-API Strategy runs exactly when both prior strategies returned
non-success outcomes and a (truthy) credential is configured. -/
theorem claim_c1_cascade_order :
    ∀ (cfg : InstagramConfig) (env : Env),
      ((getLatestPost cfg env).trace.head? = some StrategyName.puppeteer) ∧
      (∀ r, fetchViaPuppeteer cfg.username env.pupp = Except.ok r → r.success = true →
        (getLatestPost cfg env).result = Except.ok r ∧
        (getLatestPost cfg env).trace = [StrategyName.puppeteer]) ∧
      (∀ r, fetchViaPuppeteer cfg.username env.pupp = Except.ok r → r.success = false →
        StrategyName.cheerio ∈ (getLatestPost cfg env).trace ∧
        ((fetchViaCheerio cfg env.che).1.success = true →
          (getLatestPost cfg env).result = Except.ok (fetchViaCheerio cfg env.che).1 ∧
          StrategyName.api ∉ (getLatestPost cfg env).trace)) ∧
      (StrategyName.api ∈ (getLatestPost cfg env).trace ↔
        ((∃ r, fetchViaPuppeteer cfg.username env.pupp = Except.ok r ∧ r.success = false) ∧
         (fetchViaCheerio cfg env.che).1.success = false ∧
         optTruthy cfg.accessToken = true)) := by
  intro cfg env
  cases hp : fetchViaPuppeteer cfg.username env.pupp with
  | error e =>
    have hrun : getLatestPost cfg env =
        { result := Except.error e, trace := [StrategyName.puppeteer],
          cheStats := none } := by
      simp [getLatestPost, getLatestPostAux, hp]
    refine ⟨by simp [hrun], ?_, ?_, ?_⟩
    · intro r hr
      exact nomatch hr
    · intro r hr
      exact nomatch hr
    · constructor
      · intro hmem
        rw [hrun] at hmem
        simp at hmem
      · rintro ⟨⟨r, hr, -⟩, -, -⟩
        exact nomatch hr
  | ok pr =>
    cases hs : pr.success with
    | true =>
      have hrun : getLatestPost cfg env =
          { result := Except.ok pr, trace := [StrategyName.puppeteer],
            cheStats := none } := by
        simp [getLatestPost, getLatestPostAux, hp, hs]
      refine ⟨by simp [hrun], ?_, ?_, ?_⟩
      · intro r hr hrs
        injection hr with h2
        subst h2
        exact ⟨by simp [hrun], by simp [hrun]⟩
      · intro r hr hrs
        injection hr with h2
        subst h2
        rw [hs] at hrs
        exact nomatch hrs
      · constructor
        · intro hmem
          rw [hrun] at hmem
          simp at hmem
        · rintro ⟨⟨r, hr, hrs⟩, -, -⟩
          injection hr with h2
          subst h2
          rw [hs] at hrs
          exact nomatch hrs
    | false =>
      have hrun : getLatestPost cfg env = cascadeRest cfg env := by
        simp [getLatestPost, getLatestPostAux, hp, hs]
      cases hcs : (fetchViaCheerio cfg env.che).1.success with
      | true =>
        have hcr : cascadeRest cfg env =
            { result := Except.ok (fetchViaCheerio cfg env.che).1,
              trace := [StrategyName.puppeteer, StrategyName.cheerio],
              cheStats := some (fetchViaCheerio cfg env.che).2 } := by
          simp [cascadeRest, hcs]
        refine ⟨by simp [hrun, hcr], ?_, ?_, ?_⟩
        · intro r hr hrs
          injection hr with h2
          subst h2
          rw [hs] at hrs
          exact nomatch hrs
        · intro r hr hrs
          exact ⟨by simp [hrun, hcr], fun _ => ⟨by simp [hrun, hcr], by simp [hrun, hcr]⟩⟩
        · constructor
          · intro hmem
            rw [hrun, hcr] at hmem
            simp at hmem
          · rintro ⟨-, hcs2, -⟩
            exact nomatch hcs2
      | false =>
        cases hot : optTruthy cfg.accessToken with
        | true =>
          have htr : (cascadeRest cfg env).trace =
              [StrategyName.puppeteer, StrategyName.cheerio, StrategyName.api] := by
            unfold cascadeRest
            cases has : (fetchViaApi cfg env.api).success with
            | true => simp [hcs, hot, has]
            | false => simp [hcs, hot, has]
          refine ⟨by simp [hrun, htr], ?_, ?_, ?_⟩
          · intro r hr hrs
            injection hr with h2
            subst h2
            rw [hs] at hrs
            exact nomatch hrs
          · intro r hr hrs
            exact ⟨by simp [hrun, htr], fun hcs2 => nomatch hcs2⟩
          · constructor
            · intro _
              exact ⟨⟨pr, rfl, hs⟩, rfl, rfl⟩
            · intro _
              rw [hrun, htr]
              decide
        | false =>
          have hcr : cascadeRest cfg env =
              { result := Except.ok allFailedResp,
                trace := [StrategyName.puppeteer, StrategyName.cheerio],
                cheStats := some (fetchViaCheerio cfg env.che).2 } := by
            simp [cascadeRest, hcs, hot]
          refine ⟨by simp [hrun, hcr], ?_, ?_, ?_⟩
          · intro r hr hrs
            injection hr with h2
            subst h2
            rw [hs] at hrs
            exact nomatch hrs
          · intro r hr hrs
            exact ⟨by simp [hrun, hcr], fun hcs2 => nomatch hcs2⟩
          · constructor
            · intro hmem
              rw [hrun, hcr] at hmem
              simp at hmem
            · rintro ⟨-, -, hot2⟩
              exact nomatch hot2

/-- C1, witness: the cascade theorem applied to a world where the
browser strategy succeeds — the outcome is returned directly and the
trace holds only the browser strategy. -/
theorem claim_c1_witness :
    (getLatestPost cfgDefault { pupp := puppHappyEnv }).result =
      Except.ok puppHappyResp ∧
    (getLatestPost cfgDefault { pupp := puppHappyEnv }).trace =
      [StrategyName.puppeteer] :=
  (claim_c1_cascade_order cfgDefault { pupp := puppHappyEnv }).2.1
    puppHappyResp (by rfl) rfl

/-- C2, counterexample: when the `finally`-block `browser.close()`
rejects, the rejection supersedes the caught result and propagates past
the strategy — and `getLatestPost` awaits it uncaught, so the call
yields no `RetrievalOutcome` at all, refuting the claim that every
internal fault is converted into a Failure value. -/
theorem claim_c2_counterexample :
    (getLatestPost cfgDefault { pupp := puppCloseFailEnv }).result =
      Except.error "close failed" ∧
    ¬ ∃ r : InstagramResponse,
        (getLatestPost cfgDefault { pupp := puppCloseFailEnv }).result =
          Except.ok r := by
  have hres : (getLatestPost cfgDefault { pupp := puppCloseFailEnv }).result =
      Except.error "close failed" := by rfl
  refine ⟨hres, ?_⟩
  rintro ⟨r, hr⟩
  rw [hres] at hr
  exact nomatch hr

/-- C2 (amended): every outcome `getLatestPost` returns is exactly one
of Success or Failure (never both populated, never neither); the static
and API strategies are total converters of faults into Failure values,
and the browser strategy is too for every fault raised in its `try`
body — but a rejection of the `browser.close()` cleanup call propagates
past all boundaries, so an outcome is only guaranteed when the close
succeeds. -/
theorem claim_c2_outcome_totality :
    ∀ (cfg : InstagramConfig) (env : Env),
      (∀ r, (getLatestPost cfg env).result = Except.ok r → wellFormedResp r) ∧
      wellFormedResp (fetchViaCheerio cfg env.che).1 ∧
      wellFormedResp (fetchViaApi cfg env.api) ∧
      (∀ r, fetchViaPuppeteer cfg.username env.pupp = Except.ok r → wellFormedResp r) ∧
      (env.pupp.closeBrowser = Except.ok () →
        ∃ r, (getLatestPost cfg env).result = Except.ok r) := by
  intro cfg env
  exact ⟨fun r h => getLatestPostAux_ok_wellFormed h,
         (fetchViaCheerio_shape cfg env.che).1,
         (fetchViaApi_shape cfg env.api).1,
         fun r h => (fetchViaPuppeteer_ok h).1,
         fun hc => getLatestPostAux_total hc⟩

/-- C2, witness: the amended theorem applied to a concrete world with a
well-behaved close: an outcome exists and is well-formed. -/
theorem claim_c2_witness :
    (∃ r, (getLatestPost cfgDefault { pupp := puppHappyEnv }).result = Except.ok r) ∧
    wellFormedResp puppHappyResp :=
  ⟨(claim_c2_outcome_totality cfgDefault { pupp := puppHappyEnv }).2.2.2.2 rfl,
   (claim_c2_outcome_totality cfgDefault { pupp := puppHappyEnv }).1
     puppHappyResp (by rfl)⟩

/-- C3, counterexample: when every strategy fails, the reason returned
is the fixed string `Failed to fetch Instagram data using all available
methods`: it is not the literal `all retrieval methods exhausted`, and
it does not contain the individual strategies' failure reason texts
(here `blocked` and `network`) — they are only logged, so the
aggregation part of the claim fails. -/
theorem claim_c3_counterexample :
    (getLatestPost cfgDefault envAllFail).result = Except.ok allFailedResp ∧
    allFailedResp.error =
      some "Failed to fetch Instagram data using all available methods" ∧
    allFailedResp.error ≠ some "all retrieval methods exhausted" ∧
    containsSub "Failed to fetch Instagram data using all available methods"
      "blocked" = false ∧
    containsSub "Failed to fetch Instagram data using all available methods"
      "network" = false := by
  refine ⟨by rfl, rfl, by decide, by decide, by decide⟩

/-- C3 (amended): when the browser and static strategies return
non-success outcomes and the API strategy is skipped or fails,
`getLatestPost` returns the Failure with the fixed exhaustion reason
`Failed to fetch Instagram data using all available methods`, carrying
no partial `PostRecord`; the individual strategies' failure reasons are
not aggregated into it. -/
theorem claim_c3_exhaustion :
    ∀ (cfg : InstagramConfig) (env : Env) (r : InstagramResponse),
      fetchViaPuppeteer cfg.username env.pupp = Except.ok r → r.success = false →
      (fetchViaCheerio cfg env.che).1.success = false →
      (optTruthy cfg.accessToken = true → (fetchViaApi cfg env.api).success = false) →
      (getLatestPost cfg env).result = Except.ok allFailedResp ∧
      allFailedResp.success = false ∧ allFailedResp.data = none ∧
      allFailedResp.error =
        some "Failed to fetch Instagram data using all available methods" := by
  intro cfg env r hp hs hcs hapi
  refine ⟨?_, rfl, rfl, rfl⟩
  have hrun : getLatestPost cfg env = cascadeRest cfg env := by
    simp [getLatestPost, getLatestPostAux, hp, hs]
  rw [hrun]
  unfold cascadeRest
  cases hot : optTruthy cfg.accessToken with
  | false => simp [hcs, hot]
  | true => simp [hcs, hot, hapi hot]

/-- C3, witness: the exhaustion theorem applied to the concrete
all-failing world. -/
theorem claim_c3_witness :
    (getLatestPost cfgDefault envAllFail).result = Except.ok allFailedResp ∧
    allFailedResp.data = none :=
  have h := claim_c3_exhaustion cfgDefault envAllFail puppBlockedResp
    (by rfl) rfl (by rfl) (fun hc => nomatch hc)
  ⟨h.1, h.2.2.1⟩

/-- C8, counterexample: the service keeps no snapshot of the target
identifier — each strategy re-reads `this.config.username` when it
runs.  A `setUsername("newuser")` delivered at the await boundary after
the browser strategy (while the call is still in flight) is observed by
every fetch attempt of that same call's static strategy: the recorded
usernames are all `newuser`, not the `bbcnews` the call started with —
refuting the snapshot claim. -/
theorem claim_c8_counterexample :
    cfgDefault.username = "bbcnews" ∧
    (getLatestPostAux cfgDefault (some "newuser") envAllFail).cheStats =
      some { attempts := 3, waits := [2000, 4000],
             usernames := ["newuser", "newuser", "newuser"] } ∧
    "bbcnews" ∉ ["newuser", "newuser", "newuser"] := by
  refine ⟨rfl, by rfl, by decide⟩

/-- C8 (amended): the identifier is read live, not snapshotted: a
reconfiguration arriving after a call has begun changes the identifier
used by the remaining strategies of that in-flight call — every static
strategy fetch attempt after the update requests the new identifier —
as well as by the next call. -/
theorem claim_c8_live_identifier :
    ∀ (cfg : InstagramConfig) (env : Env) (u : String) (r : InstagramResponse),
      fetchViaPuppeteer cfg.username env.pupp = Except.ok r → r.success = false →
      (∃ st, (getLatestPostAux cfg (some u) env).cheStats = some st ∧
        st.usernames ≠ [] ∧ ∀ s ∈ st.usernames, s = u) ∧
      (setUsername cfg u).username = u := by
  intro cfg env u r hp hs
  refine ⟨?_, rfl⟩
  have hrun : getLatestPostAux cfg (some u) env =
      cascadeRest (setUsername cfg u) env := by
    simp [getLatestPostAux, hp, hs]
  rw [hrun]
  have hstats : (cascadeRest (setUsername cfg u) env).cheStats =
      some (fetchViaCheerio (setUsername cfg u) env.che).2 := by
    unfold cascadeRest
    cases hcs : (fetchViaCheerio (setUsername cfg u) env.che).1.success with
    | true => simp [hcs]
    | false =>
      cases hot : optTruthy (setUsername cfg u).accessToken with
      | true =>
        cases has : (fetchViaApi (setUsername cfg u) env.api).success with
        | true => simp [hcs, hot, has]
        | false => simp [hcs, hot, has]
      | false => simp [hcs, hot]
  refine ⟨(fetchViaCheerio (setUsername cfg u) env.che).2, hstats, ?_, ?_⟩
  · have hlen := @fetchLoop_usernames_len_succ env.che u 3 2 0 [] [] (by decide)
    simp only [show (2 : Nat) + 1 = 3 from rfl] at hlen
    intro hnil
    have : (fetchViaCheerio (setUsername cfg u) env.che).2.usernames.length = 0 := by
      rw [hnil]
      rfl
    have heq : (fetchViaCheerio (setUsername cfg u) env.che).2 =
        (fetchLoop env.che u 3 3 0 [] []).2 := rfl
    rw [heq] at this
    omega
  · intro s hsmem
    have heq : (fetchViaCheerio (setUsername cfg u) env.che).2 =
        (fetchLoop env.che u 3 3 0 [] []).2 := rfl
    rw [heq] at hsmem
    rcases fetchLoop_usernames_mem env.che u 3 3 0 [] [] s hsmem with h | h
    · exact h
    · exact absurd h (List.not_mem_nil s)

/-- C8, witness: the live-identifier theorem applied to the concrete
all-failing world with a mid-call update to newuser. -/
theorem claim_c8_witness :
    (∃ st, (getLatestPostAux cfgDefault (some "newuser") envAllFail).cheStats = some st ∧
      st.usernames ≠ [] ∧ ∀ s ∈ st.usernames, s = "newuser") ∧
    (setUsername cfgDefault "newuser").username = "newuser" :=
  claim_c8_live_identifier cfgDefault envAllFail "newuser" puppBlockedResp (by rfl) rfl

/-- C10: in every Success of the Browser-Driven Strategy where no time
element matched any timestamp selector, the returned record's timestamp
is the empty string — present but empty (`timestamp || ''` turns the
null extraction result into `''`). -/
theorem claim_c10_timestamp_empty :
    ∀ (username : String) (env : PuppeteerEnv) (dom : PostDom) (r : InstagramResponse),
      env.evalDom = Except.ok dom →
      (∀ sel ∈ timeSelectors, dom.queryAll sel = []) →
      fetchViaPuppeteer username env = Except.ok r → r.success = true →
      ∃ p, r.data = some p ∧ p.timestamp = some "" := by
  intro username env dom r hdom hsel h hs
  obtain ⟨dom2, post, hdom2, hpost, hr, -, -⟩ := (fetchViaPuppeteer_ok h).2 hs
  rw [hdom] at hdom2
  injection hdom2 with hdd
  subst hdd
  obtain ⟨-, hts, -⟩ := puppExtract_ok hpost
  subst hr
  refine ⟨post, rfl, ?_⟩
  rw [hts]
  have htime : findTimeElem dom = none := by
    unfold findTimeElem
    apply findSome?_eq_none_of_forall
    intro sel hselmem
    rw [hsel sel hselmem]
    rfl
  simp [evaluatePostData, htime, jsOrStr]

/-- C10, witness: the timestamp theorem applied to a concrete
successful browser run whose page has no time element. -/
theorem claim_c10_witness :
    ∃ p, noTimeResp.data = some p ∧ p.timestamp = some "" :=
  claim_c10_timestamp_empty "bbcnews" puppNoTimeEnv noTimeDom noTimeResp
    (by rfl) (by decide) (by rfl) rfl

/-- C4, counterexample: the static strategy's embedded-state path copies
the payload's `display_url` unchecked, so a Success can carry an EMPTY
imageUrl — refuting the claim that every Success from any strategy has a
non-empty imageUrl.  The input is a profile document whose embedded
payload has `display_url: ""`. -/
theorem claim_c4_counterexample :
    (fetchViaCheerio cfgDefault emptyImgEnv).1 =
      { success := true, data := some emptyImgPost, error := none } ∧
    emptyImgPost.imageUrl = some "" ∧ emptyImgPost.caption ≠ "" :=
  ⟨by decide, rfl, by decide⟩

/-- C4 (amended): every Success carries a record with a non-empty
caption (the literal "No caption" standing in for an absent one), and a
Success of the Browser-Driven Strategy additionally carries a non-empty
imageUrl; the static strategy's embedded-state path and the
Official-API strategy copy the payload's image URL without checking
it. -/
theorem claim_c4_success_fields :
    (∀ (username : String) (env : PuppeteerEnv) (r : InstagramResponse),
       fetchViaPuppeteer username env = Except.ok r → r.success = true →
       ∃ p, r.data = some p ∧ p.caption ≠ "" ∧ ∃ s, p.imageUrl = some s ∧ s ≠ "") ∧
    (∀ (cfg : InstagramConfig) (env : CheerioEnv),
       (fetchViaCheerio cfg env).1.success = true →
       ∃ p, (fetchViaCheerio cfg env).1.data = some p ∧ p.caption ≠ "") ∧
    (∀ (cfg : InstagramConfig) (env : ApiEnv),
       (fetchViaApi cfg env).success = true →
       ∃ p, (fetchViaApi cfg env).data = some p ∧ p.caption ≠ "") := by
  refine ⟨?_, ?_, ?_⟩
  · intro username env r h hs
    obtain ⟨dom, post, -, -, hr, hcap, himg⟩ := (fetchViaPuppeteer_ok h).2 hs
    subst hr
    exact ⟨post, rfl, hcap, himg⟩
  · intro cfg env hs
    exact (fetchViaCheerio_shape cfg env).2 hs
  · intro cfg env hs
    exact (fetchViaApi_shape cfg env).2 hs

/-- C4, witness: the amended theorem applied to a concrete successful
browser run. -/
theorem claim_c4_witness :
    ∃ p, puppHappyResp.data = some p ∧ p.caption ≠ "" ∧
      ∃ s, p.imageUrl = some s ∧ s ≠ "" := by
  have h := claim_c4_success_fields.1 "bbcnews" puppHappyEnv puppHappyResp
    (by decide) (by decide)
  exact h

/-- C6, counterexample: an EMPTY response body received inside the
retry loop is thrown as `Empty response received` and caught by the
loop's retry handler, so it IS retried — with every fetch returning an
empty body, three attempts are consumed, refuting the claim that no
additional fetch attempt follows an empty body. -/
theorem claim_c6_counterexample :
    envEmptyBody.fetch cfgDefault.username 0 = Except.ok "" ∧
    (fetchViaCheerio cfgDefault envEmptyBody).2.attempts = 3 ∧
    (fetchViaCheerio cfgDefault envEmptyBody).1 =
      { success := false,
        error := some "Cheerio error: Failed after 3 attempts: Empty response received" } :=
  ⟨rfl, by decide, by decide⟩

/-- C6 (amended): a whitespace-only (hence truthy) body and a body the
markup parser rejects are both structural failures rejected after a
single attempt, without further retries; an empty body, however, is
treated as a failed attempt and retried until the attempt budget is
exhausted. -/
theorem claim_c6_structural_reject :
    (∀ (cfg : InstagramConfig) (env : CheerioEnv) (body : String),
       env.fetch cfg.username 0 = Except.ok body → body ≠ "" →
       String.mk (trimL body.data) = "" → env.writeFile = Except.ok () →
       (fetchViaCheerio cfg env).1 =
         { success := false, error := some "Cheerio error: Invalid HTML content received" } ∧
       (fetchViaCheerio cfg env).2.attempts = 1) ∧
    (∀ (cfg : InstagramConfig) (env : CheerioEnv) (body pe : String),
       env.fetch cfg.username 0 = Except.ok body → body ≠ "" →
       String.mk (trimL body.data) ≠ "" → env.writeFile = Except.ok () →
       env.load body = Except.error pe →
       (fetchViaCheerio cfg env).1 =
         { success := false,
           error := some ("Cheerio error: Failed to parse HTML with Cheerio: " ++ pe) } ∧
       (fetchViaCheerio cfg env).2.attempts = 1) ∧
    (∀ (cfg : InstagramConfig) (env : CheerioEnv),
       (∀ i, env.fetch cfg.username i = Except.ok "") →
       (fetchViaCheerio cfg env).1.success = false ∧
       (fetchViaCheerio cfg env).2.attempts = 3) := by
  refine ⟨?_, ?_, ?_⟩
  · intro cfg env body h0 hb htr hw
    have hl : fetchLoop env cfg.username 3 3 0 [] [] =
        (Except.ok body, ⟨1, [], [cfg.username]⟩) := by
      simp [fetchLoop, h0, hb]
    constructor
    · simp [fetchViaCheerio, cheerioRespOf, hl, hw, htr, hb]
    · simp [fetchViaCheerio, cheerioRespOf, hl, hw, htr, hb]
  · intro cfg env body pe h0 hb htr hw hld
    have hl : fetchLoop env cfg.username 3 3 0 [] [] =
        (Except.ok body, ⟨1, [], [cfg.username]⟩) := by
      simp [fetchLoop, h0, hb]
    constructor
    · simp [fetchViaCheerio, cheerioRespOf, hl, hw, htr, hb, hld]
    · simp [fetchViaCheerio, cheerioRespOf, hl, hw, htr, hb, hld]
  · intro cfg env hf
    have hl : fetchLoop env cfg.username 3 3 0 [] [] =
        (Except.error "Failed after 3 attempts: Empty response received",
         ⟨3, [2 ^ 1 * 1000 + env.jitter 1, 2 ^ 2 * 1000 + env.jitter 2],
          [cfg.username, cfg.username, cfg.username]⟩) := by
      simp [fetchLoop, hf 0, hf 1, hf 2]
      decide
    constructor
    · simp [fetchViaCheerio, cheerioRespOf, hl]
    · simp [fetchViaCheerio, cheerioRespOf, hl]

/-- C6, witness: the amended theorem applied to concrete environments —
a whitespace body, an unparseable body, and an always-empty body. -/
theorem claim_c6_witness :
    ((fetchViaCheerio cfgDefault
        { fetch := fun _ _ => Except.ok " ", load := fun _ => Except.error "unused" }).2.attempts = 1) ∧
    ((fetchViaCheerio cfgDefault
        { fetch := fun _ _ => Except.ok "<x>", load := fun _ => Except.error "bad markup" }).1 =
      { success := false,
        error := some "Cheerio error: Failed to parse HTML with Cheerio: bad markup" }) ∧
    ((fetchViaCheerio cfgDefault envEmptyBody).2.attempts = 3) := by
  refine ⟨?_, ?_, ?_⟩
  · exact (claim_c6_structural_reject.1 cfgDefault
      { fetch := fun _ _ => Except.ok " ", load := fun _ => Except.error "unused" }
      " " rfl (by decide) (by decide) rfl).2
  · exact (claim_c6_structural_reject.2.1 cfgDefault
      { fetch := fun _ _ => Except.ok "<x>", load := fun _ => Except.error "bad markup" }
      "<x>" "bad markup" rfl (by decide) (by decide) rfl rfl).1
  · exact (claim_c6_structural_reject.2.2 cfgDefault envEmptyBody (fun i => rfl)).2

/-- C5: the static strategy's profile fetch is retried up to a fixed
maximum of 3 attempts with exponential backoff (base 1000 ms doubled
each retry, plus random jitter below 1000 ms): a fetch failing twice
and then succeeding with an extractable document yields Success after
exactly 3 attempts, and the two waits — 2000+jitter and 4000+jitter —
are monotonically increasing. -/
theorem claim_c5_retry_backoff :
    ∀ (cfg : InstagramConfig) (env : CheerioEnv) (e0 e1 : String),
      env.fetch cfg.username 0 = Except.error e0 →
      env.fetch cfg.username 1 = Except.error e1 →
      env.fetch cfg.username 2 = Except.ok goodHtml →
      env.load goodHtml = Except.ok goodDoc →
      env.writeFile = Except.ok () →
      env.jitter 1 < 1000 → env.jitter 2 < 1000 →
      (fetchViaCheerio cfg env).1 = goodResp ∧
      (fetchViaCheerio cfg env).2.attempts = 3 ∧
      (fetchViaCheerio cfg env).2.waits =
        [2 ^ 1 * 1000 + env.jitter 1, 2 ^ 2 * 1000 + env.jitter 2] ∧
      2 ^ 1 * 1000 + env.jitter 1 < 2 ^ 2 * 1000 + env.jitter 2 := by
  intro cfg env e0 e1 h0 h1 h2 hld hw hj1 hj2
  have hgne : goodHtml ≠ "" := by decide
  have htrim : String.mk (trimL goodHtml.data) ≠ "" := by decide
  have hfind : (goodDoc.scripts.filter hasDataMarker).findSome? processTag =
      some goodResp := by decide
  have hl : fetchLoop env cfg.username 3 3 0 [] [] =
      (Except.ok goodHtml,
       ⟨3, [2 ^ 1 * 1000 + env.jitter 1, 2 ^ 2 * 1000 + env.jitter 2],
        [cfg.username, cfg.username, cfg.username]⟩) := by
    simp [fetchLoop, h0, h1, h2, hgne]
  refine ⟨?_, ?_, ?_, by omega⟩
  · simp [fetchViaCheerio, cheerioRespOf, hl, hw, htrim, hgne, hld, hfind]
  · simp [fetchViaCheerio, cheerioRespOf, hl, hw, htrim, hgne, hld, hfind]
  · simp [fetchViaCheerio, cheerioRespOf, hl, hw, htrim, hgne, hld, hfind]

/-- C5, witness: the retry theorem applied to a concrete environment
that fails twice with a connection reset and then serves the good
document. -/
theorem claim_c5_witness :
    (fetchViaCheerio cfgDefault cheRetryEnv).1 = goodResp ∧
    (fetchViaCheerio cfgDefault cheRetryEnv).2.attempts = 3 ∧
    ∃ w1 w2, (fetchViaCheerio cfgDefault cheRetryEnv).2.waits = [w1, w2] ∧ w1 < w2 := by
  have h := claim_c5_retry_backoff cfgDefault cheRetryEnv "ECONNRESET" "ECONNRESET"
    rfl rfl rfl rfl rfl (by decide) (by decide)
  exact ⟨h.1, h.2.1, _, _, h.2.2.1, h.2.2.2⟩

/-- C7: for every profile document containing the
`window._sharedData` script pattern whose embedded payload holds the
single post edge (id X, caption text hello, display_url http://img,
taken_at_timestamp 0, shortcode abc) — with any earlier scripts
yielding nothing — the static strategy returns Success with
caption hello, imageUrl http://img, timestamp
1970-01-01T00:00:00.000Z, and a postUrl ending in /p/abc/. -/
theorem claim_c7_embedded_extraction :
    ∀ (cfg : InstagramConfig) (env : CheerioEnv) (pre rest : List String)
      (doc : CheerioDoc) (html : String),
      env.fetch cfg.username 0 = Except.ok html → html ≠ "" →
      String.mk (trimL html.data) ≠ "" → env.writeFile = Except.ok () →
      env.load html = Except.ok doc →
      doc.scripts = pre ++ goodScript :: rest →
      (∀ s ∈ pre, processTag s = none) →
      (fetchViaCheerio cfg env).1 = goodResp ∧
      goodResp.data = some goodPost ∧
      goodPost.caption = "hello" ∧
      goodPost.imageUrl = some "http://img" ∧
      goodPost.timestamp = some "1970-01-01T00:00:00.000Z" ∧
      ∃ u, goodPost.postUrl = some u ∧ endsWithSub u "/p/abc/" = true := by
  intro cfg env pre rest doc html h0 hne htrim hw hld hscr hpre
  have hfind : (doc.scripts.filter hasDataMarker).findSome? processTag =
      some goodResp := by
    rw [hscr, List.filter_append]
    have hpre2 : ((pre.filter hasDataMarker).findSome? processTag) = none :=
      findSome?_eq_none_of_forall (fun s hs => hpre s (List.mem_of_mem_filter hs))
    rw [findSome?_append_none hpre2, List.filter_cons_of_pos hasDataMarker_good,
      List.findSome?_cons, processTag_good]
  have hl : fetchLoop env cfg.username 3 3 0 [] [] =
      (Except.ok html, ⟨1, [], [cfg.username]⟩) := by
    simp [fetchLoop, h0, hne]
  refine ⟨?_, rfl, rfl, rfl, rfl, "https://www.instagram.com/p/abc/", rfl, by decide⟩
  simp [fetchViaCheerio, cheerioRespOf, hl, hw, htrim, hne, hld, hfind]

/-- C7, witness: the extraction theorem applied to the concrete good
environment. -/
theorem claim_c7_witness :
    (fetchViaCheerio cfgDefault goodCheEnv).1 = goodResp ∧
    ∃ u, goodPost.postUrl = some u ∧ endsWithSub u "/p/abc/" = true := by
  have h := claim_c7_embedded_extraction cfgDefault goodCheEnv [] [] goodDoc goodHtml
    rfl (by decide) (by decide) rfl rfl rfl (fun s hs => absurd hs (List.not_mem_nil s))
  exact ⟨h.1, h.2.2.2.2.2⟩

/-- C9, counterexample: `setUsername` stores its argument unvalidated,
so reconfiguring with the empty string leaves an empty identifier —
refuting the claim that the identifier stays non-empty after every
accepted `setTarget`. -/
theorem claim_c9_counterexample :
    (setUsername (mkInstagramConfig none none none none) "").username = "" := rfl

/-- C9 (amended): the identifier is non-empty after construction (the
constructor falls back to bbcnews through JavaScript or-chaining), and
`setUsername` overwrites it verbatim — so it stays non-empty exactly
for non-empty inputs; empty-string validation lives in the HTTP
controller, not in the service. -/
theorem claim_c9_identifier :
    (∀ cu eu ct et : Option String, (mkInstagramConfig cu eu ct et).username ≠ "") ∧
    (∀ (cfg : InstagramConfig) (u : String), (setUsername cfg u).username = u) ∧
    (∀ (cfg : InstagramConfig) (u : String), u ≠ "" →
      (setUsername cfg u).username ≠ "") := by
  refine ⟨fun cu eu ct et => ?_, fun cfg u => rfl, fun cfg u h => h⟩
  exact jsOrStr_ne_empty _ _ (jsOrStr_ne_empty _ _ (by decide))

/-- C9, witness: the amended theorem applied to the default
construction and a concrete non-empty reconfiguration. -/
theorem claim_c9_witness :
    (mkInstagramConfig none none none none).username ≠ "" ∧
    (setUsername (mkInstagramConfig none none none none) "xyz").username = "xyz" ∧
    (setUsername (mkInstagramConfig none none none none) "xyz").username ≠ "" :=
  ⟨claim_c9_identifier.1 none none none none,
   claim_c9_identifier.2.1 _ "xyz",
   claim_c9_identifier.2.2 _ "xyz" (by decide)⟩

end InstagramRetrieval
